import Mathlib

/-
  Verification development for the Stack Novation Launchpad trigger plugin.

  The definitions below are a shallow embedding of the plugin source file
  (StackLaunchpadTrigger.cpp).  Machine integers are modelled as Nat or Int
  with explicit mod-256 arithmetic where the C code converts values to
  unsigned char / uint8_t, and with an explicit signed reinterpretation
  where the C code stores uint8_t values into int8_t struct fields and
  reads them back.  Byte buffers written to the MIDI output handle are
  recorded in an outbox list on the device model, in write order.
-/

set_option maxRecDepth 10000

----------------------------------------------------------------------------
-- ADDRESS MAPPING (source lines 173-183)

/-- Model of stack_launchpad_trigger_col_row_to_address: address =
(10 - row) * 10 + column, computed in int arithmetic and returned as an
unsigned char, hence the mod 256. -/
def stack_launchpad_trigger_col_row_to_address (column row : Nat) : Nat :=
  (((10 - (row : Int)) * 10 + (column : Int)) % 256).toNat

/-- Model of stack_launchpad_trigger_address_to_col_row: row =
10 - ((address - 1) / 10), column = address % 10.  In C the division
(address - 1) / 10 is an int division truncating toward zero; for
address = 0 it yields 0, which coincides with the Nat subtraction and
division used here, so this form is faithful for every address < 256.
The row is stored through a uint8_t pointer, hence the mod 256. -/
def stack_launchpad_trigger_address_to_col_row (address : Nat) : Nat × Nat :=
  (address % 10, ((10 - (((address - 1) / 10 : Nat) : Int)) % 256).toNat)

----------------------------------------------------------------------------
-- DATA MODEL (source lines 26-78)

/-- Model of the LaunchpadButton struct (source lines 26-33).  The three
colour fields are declared int8_t in the source; we store the underlying
byte pattern as a Nat below 256 and reinterpret it as a signed value at
the places where the source reads the field back (see storedHalfByte). -/
structure LaunchpadButton where
  last_press_time : Int
  usage_count : Int
  r : Nat
  g : Nat
  b : Nat
deriving Repr, DecidableEq

instance : Inhabited LaunchpadButton := ⟨⟨0, 0, 0, 0, 0⟩⟩

/-- Model of the LaunchpadDevice struct (source lines 36-45) together with
an outbox recording every byte buffer passed to snd_rawmidi_write on
handle_out, in order.  The grid is keyed by (column, row); for coordinates
in 1..9 this is a faithful rendering of the buttons array indexed by
(row - 1) * rows + column - 1, which is a bijection on the valid range
(rows = columns = 9 throughout, as initialised at source lines 370-372). -/
structure LaunchpadDevice where
  buttons : Nat × Nat → LaunchpadButton
  ready : Bool
  sent : List (List Nat)

/-- Model of the StackLaunchpadTrigger struct fields that the core logic
reads (header file).  All five byte fields are uint8_t in the source. -/
structure StackLaunchpadTrigger where
  column : Nat
  row : Nat
  r : Nat
  g : Nat
  b : Nat
  on_pressed : Bool
  use_for_cue_list : Bool
deriving Repr, DecidableEq

/-- Default trigger as initialised by stack_launchpad_trigger_create
(source lines 711-717). -/
instance : Inhabited StackLaunchpadTrigger :=
  ⟨⟨0, 0, 0, 0, 0, true, false⟩⟩

/-- Model of the LaunchpadGlobalButton struct (source lines 48-55). -/
structure LaunchpadGlobalButton where
  column : Nat
  row : Nat
  r : Nat
  g : Nat
  b : Nat
  keymap : Nat
deriving Repr, DecidableEq

/-- The compile-time initial contents of the global_buttons array
(source lines 71-78); the keymap values are the GDK key codes
Up, Down, Left, Right, space and Escape. -/
def global_buttons_default : List LaunchpadGlobalButton :=
  [⟨1, 1, 255, 255, 255, 0xff52⟩,
   ⟨2, 1, 255, 255, 255, 0xff54⟩,
   ⟨3, 1, 255, 255, 255, 0xff51⟩,
   ⟨4, 1, 255, 255, 255, 0xff53⟩,
   ⟨9, 9, 0, 255, 0, 0x20⟩,
   ⟨9, 6, 255, 0, 0, 0xff1b⟩]

/-- Writes one cell of the grid, leaving every other cell unchanged. -/
def writePad (g : Nat × Nat → LaunchpadButton) (column row : Nat)
    (p : LaunchpadButton) : Nat × Nat → LaunchpadButton :=
  fun x => if x = (column, row) then p else g x

/-- The device as initialised on first use by
stack_launchpad_trigger_get_device (source lines 364-374): a 9 by 9 grid
of zeroed buttons, not ready, nothing written yet. -/
def initialLaunchpadDevice : LaunchpadDevice :=
  ⟨fun _ => default, false, []⟩

----------------------------------------------------------------------------
-- GET BUTTON (source lines 185-193)

/-- Model of the pointer test in stack_launchpad_trigger_get_button: the
function returns NULL exactly when the device is NULL or column > columns
or row > rows.  We model a non-NULL device with rows = columns = 9 and
return the array index (row - 1) * rows + column - 1 computed by the
source, as an Int so that negative (out of bounds) indices are visible.
Note the function does not reject column = 0 or row = 0. -/
def stack_launchpad_trigger_get_button_index (column row : Nat) : Option Int :=
  if column > 9 || row > 9 then none
  else some (((row : Int) - 1) * 9 + (column : Int) - 1)

----------------------------------------------------------------------------
-- OUTBOUND MESSAGES (source lines 196-293)

/-- The 13-byte buffer assembled by stack_launchpad_trigger_midi_set_color
(source lines 205-210): header, record type 0x03, the pad address at index
8, the three colour components halved at indices 9 to 11, and the SysEx
terminator.  The components are uint8_t parameters, hence the mod 256. -/
def stack_launchpad_trigger_midi_set_color_output
    (column row r g b : Nat) : List Nat :=
  [0xf0, 0x00, 0x20, 0x29, 0x02, 0x0c, 0x03, 0x03,
   stack_launchpad_trigger_col_row_to_address column row,
   r % 256 / 2, g % 256 / 2, b % 256 / 2, 0xf7]

/-- Model of stack_launchpad_trigger_midi_set_color (source lines 196-218):
the colour is always stored into the grid cell (the source writes the
int8_t fields unconditionally, so the stored byte pattern is the component
mod 256), and the 13-byte buffer is written to the output handle only when
the device is ready. -/
def stack_launchpad_trigger_midi_set_color (d : LaunchpadDevice)
    (column row r g b : Nat) : LaunchpadDevice :=
  let p := d.buttons (column, row)
  let p2 := { p with r := r % 256, g := g % 256, b := b % 256 }
  let d2 := { d with buttons := writePad d.buttons column row p2 }
  if d.ready then
    { d2 with sent := d2.sent ++
        [stack_launchpad_trigger_midi_set_color_output column row r g b] }
  else d2

/-- Reading a colour component out of an int8_t field and halving it, as
stack_launchpad_trigger_midi_refresh_colors does (source lines 279-281):
the stored byte v is reinterpreted as the signed value s with s = v for
v < 128 and s = v - 256 otherwise, s is divided by 2 with C truncation
toward zero, and the quotient is converted back to unsigned char. -/
def storedHalfByte (v : Nat) : Nat :=
  if v % 256 < 128 then v % 256 / 2 else (256 - (256 - v % 256) / 2) % 256

/-- One 5-byte record of the full refresh message (source lines 277-281). -/
def launchpad_button_record (p : LaunchpadButton) (column row : Nat) :
    List Nat :=
  [0x03, stack_launchpad_trigger_col_row_to_address column row,
   storedHalfByte p.r, storedHalfByte p.g, storedHalfByte p.b]

/-- The 413-byte buffer assembled by
stack_launchpad_trigger_midi_refresh_colors (source lines 262-285): the
7-byte header, then for row = 1..9 and within each row column = 1..9 one
5-byte record per pad, then the terminator at index 412. -/
def stack_launchpad_trigger_midi_refresh_colors_output
    (d : LaunchpadDevice) : List Nat :=
  [0xf0, 0x00, 0x20, 0x29, 0x02, 0x0c, 0x03] ++
  (List.range 9).flatMap (fun ri =>
    (List.range 9).flatMap (fun ci =>
      launchpad_button_record (d.buttons (ci + 1, ri + 1)) (ci + 1) (ri + 1))) ++
  [0xf7]

/-- Model of stack_launchpad_trigger_midi_refresh_colors (source lines
262-293): the buffer is always assembled and is written to the output
handle only when the device is ready. -/
def stack_launchpad_trigger_midi_refresh_colors (d : LaunchpadDevice) :
    LaunchpadDevice :=
  if d.ready then
    { d with sent := d.sent ++
        [stack_launchpad_trigger_midi_refresh_colors_output d] }
  else d

/-- Blanks the colour fields of every pad with 1 <= column <= 9 and
1 <= row <= 9, leaving usage counts and press times unchanged, as the
loop at source lines 299-308 does. -/
def blankPadColors (g : Nat × Nat → LaunchpadButton) :
    Nat × Nat → LaunchpadButton :=
  fun x =>
    if 1 ≤ x.1 && x.1 ≤ 9 && 1 ≤ x.2 && x.2 ≤ 9 then
      let p := g x
      { p with r := 0, g := 0, b := 0 }
    else g x

/-- Model of stack_launchpad_trigger_midi_all_off (source lines 296-312):
every colour in the local grid is set to black (usage counts are not
touched) and then the full refresh message is sent. -/
def stack_launchpad_trigger_midi_all_off (d : LaunchpadDevice) :
    LaunchpadDevice :=
  stack_launchpad_trigger_midi_refresh_colors
    { d with buttons := blankPadColors d.buttons }

----------------------------------------------------------------------------
-- ADD / REMOVE BUTTON (source lines 221-259)

/-- Bumps the usage count of one grid cell, as button->usage_count++ does. -/
def bumpUsage (d : LaunchpadDevice) (column row : Nat) : LaunchpadDevice :=
  let p := d.buttons (column, row)
  { d with buttons :=
      writePad d.buttons column row { p with usage_count := p.usage_count + 1 } }

/-- Model of stack_launchpad_trigger_add_button (source lines 221-240): when
get_button returns non-NULL (column <= 9 and row <= 9) the usage count is
incremented and the colour is set; afterwards every trigger in the list
whose (column, row) matches is recoloured (this loop runs even when the
button pointer was NULL).  The trigger colour fields are uint8_t, hence the
mod 256 on the recolouring.  For column = 0 or row = 0 the source pointer
is out of bounds (see the get_button index analysis); the grid write is
modelled at the same (column, row) key, and every theorem about this
operation restricts to coordinates at which the source is defined. -/
def stack_launchpad_trigger_add_button
    (s : LaunchpadDevice × List StackLaunchpadTrigger)
    (column row r g b : Nat) :
    LaunchpadDevice × List StackLaunchpadTrigger :=
  let d2 :=
    if column ≤ 9 && row ≤ 9 then
      stack_launchpad_trigger_midi_set_color (bumpUsage s.1 column row)
        column row r g b
    else s.1
  let ts2 := s.2.map (fun t =>
    if t.column = column && t.row = row then
      { t with r := r % 256, g := g % 256, b := b % 256 }
    else t)
  (d2, ts2)

/-- Model of stack_launchpad_trigger_remove_button (source lines 243-259):
coordinates with column = 0, row = 0, column > 9 or row > 9 are rejected;
otherwise, when the usage count is positive it is decremented, and when it
reaches zero the colour is set to black. -/
def stack_launchpad_trigger_remove_button (d : LaunchpadDevice)
    (column row : Nat) : LaunchpadDevice :=
  if column = 0 || row = 0 || column > 9 || row > 9 then d
  else
    let p := d.buttons (column, row)
    if 0 < p.usage_count then
      let p2 := { p with usage_count := p.usage_count - 1 }
      let d2 := { d with buttons := writePad d.buttons column row p2 }
      if p.usage_count - 1 = 0 then
        stack_launchpad_trigger_midi_set_color d2 column row 0 0 0
      else d2
    else d

----------------------------------------------------------------------------
-- UPDATE BUTTONS (source lines 315-352)

/-- Resets every pad with 1 <= column <= 9 and 1 <= row <= 9 to black with
usage count zero, as the loop at source lines 318-328 does. -/
def resetPads (g : Nat × Nat → LaunchpadButton) :
    Nat × Nat → LaunchpadButton :=
  fun x =>
    if 1 ≤ x.1 && x.1 ≤ 9 && 1 ≤ x.2 && x.2 ≤ 9 then
      let p := g x
      { p with r := 0, g := 0, b := 0, usage_count := 0 }
    else g x

/-- The inner loop at source lines 341-349: add_button is called once per
global button, in array order. -/
def add_global_buttons (s : LaunchpadDevice × List StackLaunchpadTrigger)
    (globals : List LaunchpadGlobalButton) :
    LaunchpadDevice × List StackLaunchpadTrigger :=
  globals.foldl (fun s gb =>
    stack_launchpad_trigger_add_button s gb.column gb.row gb.r gb.g gb.b) s

/-- The per-trigger body of the loop at source lines 331-351, iterated over
the list positions.  The trigger is re-read from the current list state at
each step because add_button may have recoloured it on an earlier step.
The source increments the usage count and sets the colour without a NULL
check; for triggers with coordinates outside 1..9 the source behaviour is
undefined, and theorems about this operation restrict to trigger lists with
valid coordinates. -/
def stack_launchpad_trigger_update_buttons_loop
    (globals : List LaunchpadGlobalButton)
    (s : LaunchpadDevice × List StackLaunchpadTrigger) (i fuel : Nat) :
    LaunchpadDevice × List StackLaunchpadTrigger :=
  match fuel with
  | 0 => s
  | Nat.succ fuel =>
    let t := s.2.getD i default
    let d2 := stack_launchpad_trigger_midi_set_color
      (bumpUsage s.1 t.column t.row) t.column t.row t.r t.g t.b
    let s2 := if t.use_for_cue_list
      then add_global_buttons (d2, s.2) globals
      else (d2, s.2)
    stack_launchpad_trigger_update_buttons_loop globals s2 (i + 1) fuel

/-- Model of stack_launchpad_trigger_update_buttons (source lines 315-352):
every pad is reset to black with usage count zero, then for every trigger
in list order the usage count of its pad is incremented and its colour is
sent, and for triggers with cue list control enabled all six global
buttons are claimed via add_button. -/
def stack_launchpad_trigger_update_buttons
    (globals : List LaunchpadGlobalButton) (d : LaunchpadDevice)
    (ts : List StackLaunchpadTrigger) :
    LaunchpadDevice × List StackLaunchpadTrigger :=
  stack_launchpad_trigger_update_buttons_loop globals
    ({ d with buttons := resetPads d.buttons }, ts) 0 ts.length

----------------------------------------------------------------------------
-- DEVICE ACQUISITION SUCCESS PATH AND CLOSE (source lines 354-474)

/-- Model of the success path of stack_launchpad_trigger_get_device (source
lines 404-431): once the MIDI handles are opened and a poll descriptor is
obtained, the device is marked ready and
stack_launchpad_trigger_update_buttons is called to re-derive the LED
state from the registered triggers. -/
def stack_launchpad_trigger_get_device_success
    (globals : List LaunchpadGlobalButton) (d : LaunchpadDevice)
    (ts : List StackLaunchpadTrigger) :
    LaunchpadDevice × List StackLaunchpadTrigger :=
  stack_launchpad_trigger_update_buttons globals { d with ready := true } ts

/-- Model of stack_launchpad_trigger_close_device (source lines 439-474):
all pads are turned off with one refresh message, the handles are closed
and the device is marked not ready. -/
def stack_launchpad_trigger_close_device (d : LaunchpadDevice) :
    LaunchpadDevice :=
  { stack_launchpad_trigger_midi_all_off d with ready := false }

----------------------------------------------------------------------------
-- POLL LOOP: HANDLING OF ONE EVENT FOR ONE MATCHING TRIGGER
-- (source lines 652-679)

/-- Model of the per-trigger handling of one decoded MIDI event in
stack_launchpad_trigger_thread (source lines 652-679): for a trigger whose
(row, column) matches the event, a press (pressure > 0) is honoured only
when the time elapsed since the last press of the pad exceeds the debounce
window (the source compares the clock difference against the double
literal 1e3, that is 1000); an honoured press records the press time and
blanks the pad, an ignored press sets the debounced flag; a release always
restores the trigger colour.  The action fires when the press was not
debounced and the trigger fires on press, or on release when the trigger
fires on release.  The Bool returned is whether
stack_launchpad_trigger_run_action was called.  The two clock reads inside
the branch are modelled by the single parameter now. -/
def stack_launchpad_trigger_handle_pad_event (d : LaunchpadDevice)
    (t : StackLaunchpadTrigger) (column row pressure : Nat) (now : Int) :
    LaunchpadDevice × Bool :=
  if t.row = row && t.column = column then
    let button := d.buttons (column, row)
    if 0 < pressure then
      if 1000 < now - button.last_press_time then
        let b2 := { button with last_press_time := now }
        let d2 := { d with buttons := writePad d.buttons column row b2 }
        (stack_launchpad_trigger_midi_set_color d2 column row 0 0 0,
         t.on_pressed)
      else (d, false)
    else
      (stack_launchpad_trigger_midi_set_color d column row t.r t.g t.b,
       !t.on_pressed)
  else (d, false)

----------------------------------------------------------------------------
-- DEVICE DISCOVERY (source lines 83-171)

/-- True when the needle occurs as a contiguous run inside the haystack,
which is what a non-NULL strstr result means. -/
def listHasRun (haystack needle : List Char) : Bool :=
  match haystack with
  | [] => needle.isEmpty
  | _ :: t =>
    (needle.isPrefixOf haystack) || listHasRun t needle

/-- The result of querying one rawmidi device on an opened control handle
in stack_launchpad_trigger_get_device_address: the info query can fail
fatally (error other than ENOENT, source line 130), fail with ENOENT
(source line 132), or succeed with a device name and a list of subdevice
names, where none stands for a subdevice whose own info query fails
(source line 148). -/
inductive LaunchpadRawMidiQuery
| fatalErr
| noEnt
| ok (name : List Char) (subs : List (Option (List Char)))
deriving Repr, DecidableEq

/-- One sound card as seen by the discovery loop: whether snd_ctl_open
succeeds on it, and its rawmidi devices in enumeration order. -/
structure LaunchpadSoundCard where
  openOk : Bool
  devs : List LaunchpadRawMidiQuery
deriving Repr, DecidableEq

/-- The subdevice scan at source lines 143-160: subdevices are inspected in
order; a failing subdevice query breaks out of the scan; a subdevice whose
name contains both the product string and the plain MIDI marker is
returned. -/
def launchpad_scan_subdevices (subs : List (Option (List Char))) (idx : Nat) :
    Option Nat :=
  match subs with
  | [] => none
  | none :: _ => none
  | some s :: rest =>
    if listHasRun s ("Launchpad".toList) && listHasRun s (" MIDI ".toList) then
      some idx
    else launchpad_scan_subdevices rest (idx + 1)

/-- The device scan at source lines 101-164 for one opened card: devices
are inspected in order; a fatal info error ends the scan of this card; an
ENOENT error skips to the next device; a device whose name contains the
product string has its subdevices scanned, and a hit ends the search. -/
def launchpad_scan_devices (devs : List LaunchpadRawMidiQuery) (idx : Nat) :
    Option (Nat × Nat) :=
  match devs with
  | [] => none
  | LaunchpadRawMidiQuery.fatalErr :: _ => none
  | LaunchpadRawMidiQuery.noEnt :: rest => launchpad_scan_devices rest (idx + 1)
  | LaunchpadRawMidiQuery.ok name subs :: rest =>
    if listHasRun name ("Launchpad".toList) then
      match launchpad_scan_subdevices subs 0 with
      | some s => some (idx, s)
      | none => launchpad_scan_devices rest (idx + 1)
    else launchpad_scan_devices rest (idx + 1)

/-- Model of stack_launchpad_trigger_get_device_address (source lines
83-171): cards are enumerated in order and the hw:card,device,subdevice
triple of the first hit is returned.  Note the source breaks out of the
whole card loop when snd_ctl_open fails on a card (source lines 95-99), so
a card that cannot be opened ends the entire enumeration. -/
def stack_launchpad_trigger_get_device_address
    (cards : List LaunchpadSoundCard) (idx : Nat) :
    Option (Nat × Nat × Nat) :=
  match cards with
  | [] => none
  | c :: rest =>
    if c.openOk then
      match launchpad_scan_devices c.devs 0 with
      | some (dv, sd) => some (idx, dv, sd)
      | none => stack_launchpad_trigger_get_device_address rest (idx + 1)
    else none

/-- The discovery behaviour stated by the claim and the specification, in
which a failure to open one bus adapter is non-fatal and enumeration
continues with the next adapter.  This definition follows the words of the
specification and differs from the source only on the open-failure arm. -/
def stack_launchpad_trigger_get_device_address_claimed
    (cards : List LaunchpadSoundCard) (idx : Nat) :
    Option (Nat × Nat × Nat) :=
  match cards with
  | [] => none
  | c :: rest =>
    if c.openOk then
      match launchpad_scan_devices c.devs 0 with
      | some (dv, sd) => some (idx, dv, sd)
      | none => stack_launchpad_trigger_get_device_address_claimed rest (idx + 1)
    else stack_launchpad_trigger_get_device_address_claimed rest (idx + 1)

----------------------------------------------------------------------------
-- TRIGGER JSON DESERIALISATION (source lines 845-908)

/-- The fields of the StackLaunchpadTrigger JSON object that
stack_launchpad_trigger_from_json reads; none means the member is absent. -/
structure LaunchpadTriggerJson where
  jrow : Option Nat
  jcolumn : Option Nat
  jr : Option Nat
  jg : Option Nat
  jb : Option Nat
  jon_pressed : Option Bool
  juse_for_cue_list : Option Bool
deriving Repr, DecidableEq

/-- Model of the field assignments of stack_launchpad_trigger_from_json
(source lines 868-901): each present member is stored into the trigger
with no range validation whatsoever; the row and column fields are
uint8_t, hence the mod 256.  The function then calls
stack_launchpad_trigger_add_button with the stored column and row (source
lines 903-907). -/
def stack_launchpad_trigger_from_json (t : StackLaunchpadTrigger)
    (j : LaunchpadTriggerJson) : StackLaunchpadTrigger :=
  { t with
    row := match j.jrow with
      | some v => v % 256
      | none => t.row
    column := match j.jcolumn with
      | some v => v % 256
      | none => t.column
    r := match j.jr with
      | some v => v % 256
      | none => t.r
    g := match j.jg with
      | some v => v % 256
      | none => t.g
    b := match j.jb with
      | some v => v % 256
      | none => t.b
    on_pressed := match j.jon_pressed with
      | some v => v
      | none => t.on_pressed
    use_for_cue_list := match j.juse_for_cue_list with
      | some v => v
      | none => t.use_for_cue_list }

----------------------------------------------------------------------------
-- WORKER THREAD LIFECYCLE (source lines 57-68, 697-788)

/-- Abstract state for the trigger registry, the worker thread and the
device lifecycle: the registry size, the thread_running flag (source line
68), the number of live worker threads, and whether the device is open.
The concrete operations of the source are lock-serialised (list_mutex);
the model treats each operation as one atomic transition. -/
structure LaunchpadThreadState where
  registrySize : Nat
  threadRunning : Bool
  workerCount : Nat
  deviceOpen : Bool
deriving Repr, DecidableEq

/-- The operations that affect the worker lifecycle: trigger creation
(source lines 697-742), trigger destruction (source lines 745-788), and a
successful device acquisition performed by the worker inside its loop
(source lines 541-548). -/
inductive LaunchpadLifecycleOp
| createTrigger
| destroyTrigger
| acquireDevice
deriving Repr, DecidableEq

/-- The initial process state: empty registry, flag clear, no worker, no
device. -/
def launchpad_lifecycle_init : LaunchpadThreadState :=
  ⟨0, false, 0, false⟩

/-- One atomic lifecycle transition.  createTrigger appends to the
registry and spawns a worker exactly when thread_running is clear (source
lines 720-739; joining the previous, already terminated thread before the
spawn is a no-op here because a terminated worker is not counted).
destroyTrigger removes one trigger; when the registry becomes empty the
device is closed and the worker is joined, and the worker clears
thread_running on exit (source lines 752-779 and 686-690).  acquireDevice
marks the device open when a worker exists to perform the acquisition. -/
def launchpad_lifecycle_step (s : LaunchpadThreadState) :
    LaunchpadLifecycleOp → LaunchpadThreadState
  | LaunchpadLifecycleOp.createTrigger =>
    if s.threadRunning then
      { s with registrySize := s.registrySize + 1 }
    else
      { s with registrySize := s.registrySize + 1, threadRunning := true,
               workerCount := s.workerCount + 1 }
  | LaunchpadLifecycleOp.destroyTrigger =>
    if s.registrySize - 1 = 0 then
      ⟨0, false, 0, false⟩
    else
      { s with registrySize := s.registrySize - 1 }
  | LaunchpadLifecycleOp.acquireDevice =>
    if s.workerCount = 1 then { s with deviceOpen := true } else s

/-- The state reached after a sequence of lifecycle operations from the
initial state. -/
def launchpad_lifecycle_run (ops : List LaunchpadLifecycleOp) :
    LaunchpadThreadState :=
  ops.foldl launchpad_lifecycle_step launchpad_lifecycle_init

----------------------------------------------------------------------------
-- THE FRAME SHAPE STATED BY THE CLAIM FOR THE SINGLE-PAD MESSAGE

/-- The byte sequence for the single-pad set message exactly as listed by
the claim: the seven header bytes, 0x03, 0x00, the address, the three
halved components and the terminator.  This definition follows the words
of the claim and is compared against the buffer the source assembles. -/
def launchpad_set_color_frame_claimed (column row r g b : Nat) : List Nat :=
  [0xf0, 0x00, 0x20, 0x29, 0x02, 0x0c, 0x03, 0x03, 0x00,
   stack_launchpad_trigger_col_row_to_address column row,
   r % 256 / 2, g % 256 / 2, b % 256 / 2, 0xf7]

----------------------------------------------------------------------------
-- INVARIANTS AND OPERATION SEQUENCES USED BY THE CLAIMS

/-- The per-pad invariant of the claim: the usage count is non-negative
(it is an int32_t that the source never decrements below zero) and it is
zero exactly when the stored colour is black. -/
def LaunchpadButtonOk (p : LaunchpadButton) : Prop :=
  0 ≤ p.usage_count ∧ (p.usage_count = 0 ↔ p.r = 0 ∧ p.g = 0 ∧ p.b = 0)

/-- The grid invariant: every pad with coordinates in 1..9 satisfies
LaunchpadButtonOk. -/
def LaunchpadGridInv (d : LaunchpadDevice) : Prop :=
  ∀ column row : Nat, 1 ≤ column → column ≤ 9 → 1 ≤ row → row ≤ 9 →
    LaunchpadButtonOk (d.buttons (column, row))

/-- A trigger with a valid pad position and a colour that is not black
(after the uint8_t truncation the source applies when storing). -/
def LaunchpadTriggerOk (t : StackLaunchpadTrigger) : Prop :=
  1 ≤ t.column ∧ t.column ≤ 9 ∧ 1 ≤ t.row ∧ t.row ≤ 9 ∧
  ¬(t.r % 256 = 0 ∧ t.g % 256 = 0 ∧ t.b % 256 = 0)

/-- A global button whose colour is not black after uint8_t truncation. -/
def LaunchpadGlobalOk (gb : LaunchpadGlobalButton) : Prop :=
  ¬(gb.r % 256 = 0 ∧ gb.g % 256 = 0 ∧ gb.b % 256 = 0)

/-- Claims one pad once per entry of a colour list, via add_button. -/
def launchpad_claim_list (s : LaunchpadDevice × List StackLaunchpadTrigger)
    (column row : Nat) (colors : List (Nat × Nat × Nat)) :
    LaunchpadDevice × List StackLaunchpadTrigger :=
  colors.foldl (fun s c =>
    stack_launchpad_trigger_add_button s column row c.1 c.2.1 c.2.2) s

/-- Releases one pad a given number of times, via remove_button. -/
def launchpad_release_times (d : LaunchpadDevice) (column row : Nat) :
    Nat → LaunchpadDevice
  | 0 => d
  | Nat.succ n =>
    launchpad_release_times
      (stack_launchpad_trigger_remove_button d column row) column row n

/-- One claim or release call on the grid, for arbitrary interleavings. -/
inductive LaunchpadPadOp
| claimOp (column row r g b : Nat)
| releaseOp (column row : Nat)
deriving Repr, DecidableEq

/-- Applies a sequence of claim and release calls in order. -/
def launchpad_apply_pad_ops (s : LaunchpadDevice × List StackLaunchpadTrigger) :
    List LaunchpadPadOp → LaunchpadDevice × List StackLaunchpadTrigger
  | [] => s
  | LaunchpadPadOp.claimOp column row r g b :: rest =>
    launchpad_apply_pad_ops
      (stack_launchpad_trigger_add_button s column row r g b) rest
  | LaunchpadPadOp.releaseOp column row :: rest =>
    launchpad_apply_pad_ops
      (stack_launchpad_trigger_remove_button s.1 column row, s.2) rest

/-- The inductive invariant of the worker lifecycle model: never more than
one worker; the thread_running flag tracks the existence of a worker; a
worker exists exactly while the registry is non-empty; and the device is
only open while a worker exists. -/
def LaunchpadThreadInv (s : LaunchpadThreadState) : Prop :=
  s.workerCount ≤ 1 ∧
  (s.threadRunning = true ↔ s.workerCount = 1) ∧
  (s.workerCount = 1 ↔ 0 < s.registrySize) ∧
  (s.deviceOpen = true → s.workerCount = 1)

----------------------------------------------------------------------------
-- HELPER LEMMAS

theorem writePad_same (g : Nat × Nat → LaunchpadButton) (column row : Nat)
    (p : LaunchpadButton) : writePad g column row p (column, row) = p := by
  simp [writePad]

theorem writePad_ne (g : Nat × Nat → LaunchpadButton) (column row : Nat)
    (p : LaunchpadButton) (x : Nat × Nat) (h : x ≠ (column, row)) :
    writePad g column row p x = g x := by
  simp [writePad, h]

theorem midi_set_color_buttons (d : LaunchpadDevice) (column row r g b : Nat) :
    (stack_launchpad_trigger_midi_set_color d column row r g b).buttons =
      writePad d.buttons column row
        { d.buttons (column, row) with
            r := r % 256, g := g % 256, b := b % 256 } := by
  unfold stack_launchpad_trigger_midi_set_color
  by_cases h : d.ready <;> simp [h]

theorem midi_set_color_sent_ready (d : LaunchpadDevice)
    (column row r g b : Nat) (h : d.ready = true) :
    (stack_launchpad_trigger_midi_set_color d column row r g b).sent =
      d.sent ++
        [stack_launchpad_trigger_midi_set_color_output column row r g b] := by
  unfold stack_launchpad_trigger_midi_set_color
  simp [h]

theorem midi_set_color_sent_not_ready (d : LaunchpadDevice)
    (column row r g b : Nat) (h : d.ready = false) :
    (stack_launchpad_trigger_midi_set_color d column row r g b).sent =
      d.sent := by
  unfold stack_launchpad_trigger_midi_set_color
  simp [h]

theorem bumpUsage_buttons (d : LaunchpadDevice) (column row : Nat) :
    (bumpUsage d column row).buttons =
      writePad d.buttons column row
        { d.buttons (column, row) with
            usage_count := (d.buttons (column, row)).usage_count + 1 } := by
  rfl

/-- A usage bump followed by a colour write at one key preserves the grid
invariant, provided the written colour is not black whenever the key is a
valid pad. -/
theorem claim_step_preserves_inv (d : LaunchpadDevice) (column row r g b : Nat)
    (hInv : LaunchpadGridInv d)
    (h : 1 ≤ column → column ≤ 9 → 1 ≤ row → row ≤ 9 →
      ¬(r % 256 = 0 ∧ g % 256 = 0 ∧ b % 256 = 0)) :
    LaunchpadGridInv
      (stack_launchpad_trigger_midi_set_color (bumpUsage d column row)
        column row r g b) := by
  intro c2 r2 hc1 hc9 hr1 hr9
  rw [midi_set_color_buttons]
  by_cases hx : ((c2, r2) : Nat × Nat) = (column, row)
  · injection hx with hxc hxr
    subst hxc; subst hxr
    rw [writePad_same, bumpUsage_buttons, writePad_same]
    have hok := hInv c2 r2 hc1 hc9 hr1 hr9
    have hblack := h hc1 hc9 hr1 hr9
    obtain ⟨hnn, hiff⟩ := hok
    constructor
    · simp only []
      omega
    · simp only []
      constructor
      · intro h0
        omega
      · intro hcb
        exact absurd hcb hblack
  · rw [writePad_ne _ _ _ _ _ hx, bumpUsage_buttons,
        writePad_ne _ _ _ _ _ hx]
    exact hInv c2 r2 hc1 hc9 hr1 hr9

theorem midi_set_color_at (d : LaunchpadDevice) (column row r g b : Nat) :
    (stack_launchpad_trigger_midi_set_color d column row r g b).buttons
      (column, row) =
    { d.buttons (column, row) with
        r := r % 256, g := g % 256, b := b % 256 } := by
  rw [midi_set_color_buttons, writePad_same]

theorem midi_set_color_buttons_ne (d : LaunchpadDevice)
    (column row r g b : Nat) (x : Nat × Nat) (h : x ≠ (column, row)) :
    (stack_launchpad_trigger_midi_set_color d column row r g b).buttons x =
      d.buttons x := by
  rw [midi_set_color_buttons, writePad_ne _ _ _ _ _ h]

theorem bumpUsage_at (d : LaunchpadDevice) (column row : Nat) :
    (bumpUsage d column row).buttons (column, row) =
    { d.buttons (column, row) with
        usage_count := (d.buttons (column, row)).usage_count + 1 } := by
  rw [bumpUsage_buttons, writePad_same]

theorem bumpUsage_buttons_ne (d : LaunchpadDevice) (column row : Nat)
    (x : Nat × Nat) (h : x ≠ (column, row)) :
    (bumpUsage d column row).buttons x = d.buttons x := by
  rw [bumpUsage_buttons, writePad_ne _ _ _ _ _ h]

theorem button_with_colors_usage (p : LaunchpadButton) (r g b : Nat) :
    ({ p with r := r, g := g, b := b } : LaunchpadButton).usage_count =
      p.usage_count := rfl

theorem button_with_colors_r (p : LaunchpadButton) (r g b : Nat) :
    ({ p with r := r, g := g, b := b } : LaunchpadButton).r = r := rfl

theorem button_with_colors_g (p : LaunchpadButton) (r g b : Nat) :
    ({ p with r := r, g := g, b := b } : LaunchpadButton).g = g := rfl

theorem button_with_colors_b (p : LaunchpadButton) (r g b : Nat) :
    ({ p with r := r, g := g, b := b } : LaunchpadButton).b = b := rfl

theorem button_with_usage_usage (p : LaunchpadButton) (u : Int) :
    ({ p with usage_count := u } : LaunchpadButton).usage_count = u := rfl

theorem button_with_usage_r (p : LaunchpadButton) (u : Int) :
    ({ p with usage_count := u } : LaunchpadButton).r = p.r := rfl

theorem button_with_usage_g (p : LaunchpadButton) (u : Int) :
    ({ p with usage_count := u } : LaunchpadButton).g = p.g := rfl

theorem button_with_usage_b (p : LaunchpadButton) (u : Int) :
    ({ p with usage_count := u } : LaunchpadButton).b = p.b := rfl

theorem nat_mod_256_idem (x : Nat) : x % 256 % 256 = x % 256 :=
  Nat.mod_mod_of_dvd x dvd_rfl

/-- add_button preserves the grid invariant whenever the claimed colour is
not black after uint8_t truncation. -/
theorem add_button_preserves_inv
    (s : LaunchpadDevice × List StackLaunchpadTrigger) (column row r g b : Nat)
    (hInv : LaunchpadGridInv s.1)
    (hblack : ¬(r % 256 = 0 ∧ g % 256 = 0 ∧ b % 256 = 0)) :
    LaunchpadGridInv
      (stack_launchpad_trigger_add_button s column row r g b).1 := by
  unfold stack_launchpad_trigger_add_button
  by_cases hg : (column ≤ 9 && row ≤ 9) = true
  · simp only [hg, if_true]
    exact claim_step_preserves_inv s.1 column row r g b hInv
      (fun _ _ _ _ => hblack)
  · simp only [hg, Bool.false_eq_true, if_false]
    exact hInv

/-- add_button keeps every trigger in the list at a valid position with a
non-black colour, whenever the claimed colour is itself not black. -/
theorem add_button_preserves_triggers
    (s : LaunchpadDevice × List StackLaunchpadTrigger) (column row r g b : Nat)
    (hts : ∀ t ∈ s.2, LaunchpadTriggerOk t)
    (hblack : ¬(r % 256 = 0 ∧ g % 256 = 0 ∧ b % 256 = 0)) :
    ∀ t ∈ (stack_launchpad_trigger_add_button s column row r g b).2,
      LaunchpadTriggerOk t := by
  intro t ht
  unfold stack_launchpad_trigger_add_button at ht
  simp only [List.mem_map] at ht
  obtain ⟨t0, ht0, hmap⟩ := ht
  have hok := hts t0 ht0
  by_cases hm : (t0.column = column && t0.row = row) = true
  · simp only [hm, if_true] at hmap
    subst hmap
    obtain ⟨h1, h2, h3, h4, _⟩ := hok
    refine ⟨h1, h2, h3, h4, ?_⟩
    simpa only [nat_mod_256_idem] using hblack
  · simp only [hm, Bool.false_eq_true, if_false] at hmap
    subst hmap
    exact hok

theorem device_with_buttons (d : LaunchpadDevice)
    (w : Nat × Nat → LaunchpadButton) :
    ({ d with buttons := w } : LaunchpadDevice).buttons = w := rfl

theorem writePad_writePad (g : Nat × Nat → LaunchpadButton)
    (column row : Nat) (p q : LaunchpadButton) :
    writePad (writePad g column row p) column row q =
      writePad g column row q := by
  funext x
  by_cases hx : x = (column, row)
  · rw [hx, writePad_same, writePad_same]
  · rw [writePad_ne _ _ _ _ _ hx, writePad_ne _ _ _ _ _ hx,
      writePad_ne _ _ _ _ _ hx]

/-- remove_button preserves the grid invariant. -/
theorem remove_button_preserves_inv (d : LaunchpadDevice) (column row : Nat)
    (hInv : LaunchpadGridInv d) :
    LaunchpadGridInv (stack_launchpad_trigger_remove_button d column row) := by
  unfold stack_launchpad_trigger_remove_button
  by_cases hg : (column = 0 || row = 0 || column > 9 || row > 9) = true
  · simp only [hg, if_true]
    exact hInv
  · simp only [hg, Bool.false_eq_true, if_false]
    simp only [Bool.or_eq_true, decide_eq_true_eq, not_or] at hg
    obtain ⟨⟨⟨hc0, hr0⟩, hc9⟩, hr9⟩ := hg
    have hok := hInv column row (Nat.one_le_iff_ne_zero.mpr hc0)
      (Nat.le_of_not_lt hc9) (Nat.one_le_iff_ne_zero.mpr hr0)
      (Nat.le_of_not_lt hr9)
    obtain ⟨hnn, hiff⟩ := hok
    by_cases hpos : 0 < (d.buttons (column, row)).usage_count
    · simp only [hpos, if_true]
      by_cases hz : (d.buttons (column, row)).usage_count - 1 = 0
      · simp only [hz, if_true]
        intro c2 r2 hc1 hc9b hr1 hr9b
        rw [midi_set_color_buttons, device_with_buttons, writePad_same,
          writePad_writePad]
        by_cases hx : ((c2, r2) : Nat × Nat) = (column, row)
        · rw [hx, writePad_same]
          refine ⟨?_, ?_⟩
          · rw [button_with_colors_usage, button_with_usage_usage]
          · rw [button_with_colors_usage, button_with_usage_usage,
              button_with_colors_r, button_with_colors_g,
              button_with_colors_b]
            simp
        · rw [writePad_ne _ _ _ _ _ hx]
          exact hInv c2 r2 hc1 hc9b hr1 hr9b
      · simp only [hz, if_false]
        intro c2 r2 hc1 hc9b hr1 hr9b
        rw [device_with_buttons]
        by_cases hx : ((c2, r2) : Nat × Nat) = (column, row)
        · rw [hx, writePad_same]
          refine ⟨?_, ?_⟩
          · rw [button_with_usage_usage]
            omega
          · rw [button_with_usage_usage, button_with_usage_r,
              button_with_usage_g, button_with_usage_b]
            constructor
            · intro h0
              exact absurd h0 hz
            · intro hcb
              have h0 : (d.buttons (column, row)).usage_count = 0 :=
                hiff.mpr hcb
              omega
        · rw [writePad_ne _ _ _ _ _ hx]
          exact hInv c2 r2 hc1 hc9b hr1 hr9b
    · simp only [hpos, if_false]
      exact hInv

/-- Claiming all global buttons preserves the grid invariant and the
trigger property, when every global button has a non-black colour. -/
theorem add_global_buttons_preserves
    (globals : List LaunchpadGlobalButton) :
    ∀ s : LaunchpadDevice × List StackLaunchpadTrigger,
    (∀ gb ∈ globals, LaunchpadGlobalOk gb) →
    LaunchpadGridInv s.1 → (∀ t ∈ s.2, LaunchpadTriggerOk t) →
    LaunchpadGridInv (add_global_buttons s globals).1 ∧
      ∀ t ∈ (add_global_buttons s globals).2, LaunchpadTriggerOk t := by
  induction globals with
  | nil =>
    intro s _ hInv hts
    exact ⟨hInv, hts⟩
  | cons gb rest ih =>
    intro s hg hInv hts
    have hgb : LaunchpadGlobalOk gb := hg gb (List.mem_cons_self gb rest)
    have hrest : ∀ x ∈ rest, LaunchpadGlobalOk x :=
      fun x hx => hg x (List.mem_cons_of_mem gb hx)
    have h1 := add_button_preserves_inv s gb.column gb.row gb.r gb.g gb.b
      hInv hgb
    have h2 := add_button_preserves_triggers s gb.column gb.row gb.r gb.g gb.b
      hts hgb
    exact ih _ hrest h1 h2

/-- The update_buttons loop preserves the grid invariant and the trigger
property. -/
theorem update_buttons_loop_preserves
    (globals : List LaunchpadGlobalButton)
    (hg : ∀ gb ∈ globals, LaunchpadGlobalOk gb) :
    ∀ fuel i : Nat, ∀ s : LaunchpadDevice × List StackLaunchpadTrigger,
    LaunchpadGridInv s.1 → (∀ t ∈ s.2, LaunchpadTriggerOk t) →
    LaunchpadGridInv
        (stack_launchpad_trigger_update_buttons_loop globals s i fuel).1 ∧
      ∀ t ∈ (stack_launchpad_trigger_update_buttons_loop globals s i fuel).2,
        LaunchpadTriggerOk t := by
  intro fuel
  induction fuel with
  | zero =>
    intro i s hInv hts
    exact ⟨hInv, hts⟩
  | succ fuel ih =>
    intro i s hInv hts
    unfold stack_launchpad_trigger_update_buttons_loop
    have hstep : LaunchpadGridInv
        (stack_launchpad_trigger_midi_set_color
          (bumpUsage s.1 (s.2.getD i default).column (s.2.getD i default).row)
          (s.2.getD i default).column (s.2.getD i default).row
          (s.2.getD i default).r (s.2.getD i default).g
          (s.2.getD i default).b) := by
      apply claim_step_preserves_inv s.1 _ _ _ _ _ hInv
      intro hcol1 _ _ _
      by_cases hi : i < s.2.length
      · have hmem : s.2.getD i default ∈ s.2 := by
          rw [List.getD_eq_getElem _ _ hi]
          exact List.getElem_mem hi
        exact (hts _ hmem).2.2.2.2
      · have hd : s.2.getD i default = default :=
          List.getD_eq_default _ _ (Nat.le_of_not_lt hi)
        rw [hd] at hcol1
        exact absurd hcol1 (by decide)
    by_cases hcl : (s.2.getD i default).use_for_cue_list = true
    · simp only [hcl, if_true]
      have hglob := add_global_buttons_preserves globals
        (stack_launchpad_trigger_midi_set_color
          (bumpUsage s.1 (s.2.getD i default).column (s.2.getD i default).row)
          (s.2.getD i default).column (s.2.getD i default).row
          (s.2.getD i default).r (s.2.getD i default).g
          (s.2.getD i default).b,
         s.2) hg hstep hts
      exact ih (i + 1) _ hglob.1 hglob.2
    · simp only [hcl, Bool.false_eq_true, if_false]
      exact ih (i + 1)
        (stack_launchpad_trigger_midi_set_color
          (bumpUsage s.1 (s.2.getD i default).column (s.2.getD i default).row)
          (s.2.getD i default).column (s.2.getD i default).row
          (s.2.getD i default).r (s.2.getD i default).g
          (s.2.getD i default).b,
         s.2) hstep hts

/-- resetPads establishes the grid invariant from any starting grid. -/
theorem resetPads_inv (d : LaunchpadDevice) :
    LaunchpadGridInv ({ d with buttons := resetPads d.buttons }) := by
  intro c2 r2 hc1 hc9 hr1 hr9
  rw [device_with_buttons]
  unfold resetPads
  have hcond : (1 ≤ c2 && c2 ≤ 9 && (1 ≤ r2) && r2 ≤ 9) = true := by
    simp [hc1, hc9, hr1, hr9]
  simp only [hcond, if_true]
  constructor
  · rfl
  · simp

/-- update_buttons establishes the grid invariant whenever every trigger
has a valid position and a non-black colour and every global button has a
non-black colour. -/
theorem update_buttons_establishes_inv
    (globals : List LaunchpadGlobalButton) (d : LaunchpadDevice)
    (ts : List StackLaunchpadTrigger)
    (hg : ∀ gb ∈ globals, LaunchpadGlobalOk gb)
    (hts : ∀ t ∈ ts, LaunchpadTriggerOk t) :
    LaunchpadGridInv
      (stack_launchpad_trigger_update_buttons globals d ts).1 := by
  unfold stack_launchpad_trigger_update_buttons
  exact (update_buttons_loop_preserves globals hg ts.length 0
    ({ d with buttons := resetPads d.buttons }, ts) (resetPads_inv d) hts).1

theorem initial_device_inv : LaunchpadGridInv initialLaunchpadDevice := by
  intro c2 r2 _ _ _ _
  refine ⟨le_refl 0, ?_⟩
  constructor
  · intro _
    exact ⟨rfl, rfl, rfl⟩
  · intro _
    rfl

theorem global_buttons_default_ok :
    ∀ gb ∈ global_buttons_default, LaunchpadGlobalOk gb := by
  intro gb hgb
  unfold LaunchpadGlobalOk
  fin_cases hgb <;> decide

----------------------------------------------------------------------------
-- CLAIM THEOREMS

/-- C2: for every column and row between 1 and 9, converting the pair to a
pad address with col_row_to_address and converting the address back with
address_to_col_row yields the original column and row. -/
theorem C2_address_round_trip (column row : Nat)
    (hc1 : 1 ≤ column) (hc9 : column ≤ 9) (hr1 : 1 ≤ row) (hr9 : row ≤ 9) :
    stack_launchpad_trigger_address_to_col_row
      (stack_launchpad_trigger_col_row_to_address column row) =
      (column, row) := by
  interval_cases column <;> interval_cases row <;> decide

theorem C2_address_round_trip_witness :
    1 ≤ 3 ∧ 3 ≤ 9 ∧ 1 ≤ 4 ∧ 4 ≤ 9 ∧
    stack_launchpad_trigger_address_to_col_row
      (stack_launchpad_trigger_col_row_to_address 3 4) = (3, 4) :=
  ⟨by decide, by decide, by decide, by decide,
   C2_address_round_trip 3 4 (by decide) (by decide) (by decide) (by decide)⟩

/-- C3: the refresh message does have 413 bytes, the 7-byte header and the
terminator, but the claim that each colour byte is the component divided
by 2 fails, because the source stores components in int8_t fields: after
midi_set_color stores component 200 for pad (1, 1), the stored byte is
reinterpreted as -56, the C division by 2 gives -28, and the byte emitted
at index 9 of the refresh message is 228 instead of the claimed
200 / 2 = 100 (a value with its top bit set, contradicting the source
comment that MIDI colours stay in 0..127). -/
theorem C3_refresh_encodes_int8_reinterpretation :
    (stack_launchpad_trigger_midi_refresh_colors_output
        (stack_launchpad_trigger_midi_set_color initialLaunchpadDevice
          1 1 200 0 0)).length = 413 ∧
    (stack_launchpad_trigger_midi_refresh_colors_output
        (stack_launchpad_trigger_midi_set_color initialLaunchpadDevice
          1 1 200 0 0)).take 7 = [0xf0, 0x00, 0x20, 0x29, 0x02, 0x0c, 0x03] ∧
    (stack_launchpad_trigger_midi_refresh_colors_output
        (stack_launchpad_trigger_midi_set_color initialLaunchpadDevice
          1 1 200 0 0)).getLast? = some 0xf7 ∧
    (stack_launchpad_trigger_midi_refresh_colors_output
        (stack_launchpad_trigger_midi_set_color initialLaunchpadDevice
          1 1 200 0 0)).get? 9 = some 228 ∧
    200 / 2 = 100 ∧ (228 : Nat) ≠ 100 := by
  refine ⟨by decide, by decide, ?_, by decide, by decide, by decide⟩
  decide

/-- C4 counterexample: at pad (1, 1) with colour (255, 128, 0) the buffer
the source assembles differs from the frame listed by the claim: the claim
lists fourteen bytes, with 0x00 at index 8 and the address at index 9,
while the source emits thirteen bytes with the address at index 8. -/
theorem C4_counterexample :
    stack_launchpad_trigger_midi_set_color_output 1 1 255 128 0 ≠
      launchpad_set_color_frame_claimed 1 1 255 128 0 ∧
    (stack_launchpad_trigger_midi_set_color_output 1 1 255 128 0).length
      = 13 ∧
    (launchpad_set_color_frame_claimed 1 1 255 128 0).length = 14 := by
  refine ⟨?_, by decide, by decide⟩
  decide

/-- C4 amended: for every valid pad and every colour with components below
256, the single-pad set message is the 13-byte frame consisting of the
7-byte header, the record type 0x03, the pad address at byte 8, the three
components halved by integer division at bytes 9 to 11, and the
terminator; in particular for colour (255, 128, 0) bytes 8 to 11 hold the
address, 127, 64 and 0. -/
theorem C4_set_color_message_amended (column row r g b : Nat)
    (hc1 : 1 ≤ column) (hc9 : column ≤ 9) (hr1 : 1 ≤ row) (hr9 : row ≤ 9)
    (hr256 : r < 256) (hg256 : g < 256) (hb256 : b < 256) :
    stack_launchpad_trigger_midi_set_color_output column row r g b =
      [0xf0, 0x00, 0x20, 0x29, 0x02, 0x0c, 0x03, 0x03,
       stack_launchpad_trigger_col_row_to_address column row,
       r / 2, g / 2, b / 2, 0xf7] ∧
    (stack_launchpad_trigger_midi_set_color_output column row r g b).length
      = 13 ∧
    (stack_launchpad_trigger_midi_set_color_output column row 255 128 0).get? 8
      = some (stack_launchpad_trigger_col_row_to_address column row) ∧
    (stack_launchpad_trigger_midi_set_color_output column row 255 128 0).get? 9
      = some 127 ∧
    (stack_launchpad_trigger_midi_set_color_output column row 255 128 0).get? 10
      = some 64 ∧
    (stack_launchpad_trigger_midi_set_color_output column row 255 128 0).get? 11
      = some 0 := by
  refine ⟨?_, rfl, rfl, rfl, rfl, rfl⟩
  unfold stack_launchpad_trigger_midi_set_color_output
  rw [Nat.mod_eq_of_lt hr256, Nat.mod_eq_of_lt hg256, Nat.mod_eq_of_lt hb256]

theorem C4_set_color_message_amended_witness :
    stack_launchpad_trigger_midi_set_color_output 3 4 255 128 0 =
      [0xf0, 0x00, 0x20, 0x29, 0x02, 0x0c, 0x03, 0x03,
       stack_launchpad_trigger_col_row_to_address 3 4,
       255 / 2, 128 / 2, 0 / 2, 0xf7] ∧
    (stack_launchpad_trigger_midi_set_color_output 3 4 255 128 0).length
      = 13 ∧
    (stack_launchpad_trigger_midi_set_color_output 3 4 255 128 0).get? 8
      = some (stack_launchpad_trigger_col_row_to_address 3 4) ∧
    (stack_launchpad_trigger_midi_set_color_output 3 4 255 128 0).get? 9
      = some 127 ∧
    (stack_launchpad_trigger_midi_set_color_output 3 4 255 128 0).get? 10
      = some 64 ∧
    (stack_launchpad_trigger_midi_set_color_output 3 4 255 128 0).get? 11
      = some 0 :=
  C4_set_color_message_amended 3 4 255 128 0 (by decide) (by decide)
    (by decide) (by decide) (by decide) (by decide) (by decide)

/-- C8: the claim that row and column values outside 1..9 never reach the
grid operations fails: from_json stores row and column without any range
validation, so a JSON object with column 5 and row 0 reaches add_button;
get_button does not reject a zero coordinate, so it returns a non-NULL
pointer while the buttons array index it computes is -5, outside the
array bounds 0..80.  The claim is right about the intent (the
configuration dialog does validate, and remove_button rejects zero
itself), so the missing validation in from_json and the missing zero test
in get_button are coding slips. -/
theorem C8_from_json_reaches_out_of_bounds_index :
    (stack_launchpad_trigger_from_json default
        ⟨some 0, some 5, none, none, none, none, none⟩).row = 0 ∧
    (stack_launchpad_trigger_from_json default
        ⟨some 0, some 5, none, none, none, none, none⟩).column = 5 ∧
    stack_launchpad_trigger_get_button_index 5 0 = some (-5) ∧
    ¬ (0 ≤ (-5 : Int)) ∧
    stack_launchpad_trigger_get_button_index 5 1 = some 4 := by
  refine ⟨by decide, by decide, ?_, by decide, ?_⟩ <;> decide

/-- C1 counterexample: starting from the freshly initialised device, claim
pad (1, 1) with colour (10, 20, 30) and then run the all-off pass that
device close performs; afterwards pad (1, 1) still has usage_count 1 while
its colour is black, so the equivalence between a zero usage count and a
black colour does not hold after device close. -/
theorem C1_counterexample :
    (((stack_launchpad_trigger_midi_all_off
        (stack_launchpad_trigger_add_button
          (initialLaunchpadDevice, []) 1 1 10 20 30).1).buttons
        (1, 1)).usage_count = 1 ∧
     ((stack_launchpad_trigger_midi_all_off
        (stack_launchpad_trigger_add_button
          (initialLaunchpadDevice, []) 1 1 10 20 30).1).buttons
        (1, 1)).r = 0 ∧
     ((stack_launchpad_trigger_midi_all_off
        (stack_launchpad_trigger_add_button
          (initialLaunchpadDevice, []) 1 1 10 20 30).1).buttons
        (1, 1)).g = 0 ∧
     ((stack_launchpad_trigger_midi_all_off
        (stack_launchpad_trigger_add_button
          (initialLaunchpadDevice, []) 1 1 10 20 30).1).buttons
        (1, 1)).b = 0) ∧
    ¬ LaunchpadGridInv
        (stack_launchpad_trigger_midi_all_off
          (stack_launchpad_trigger_add_button
            (initialLaunchpadDevice, []) 1 1 10 20 30).1) := by
  refine ⟨⟨by decide, by decide, by decide, by decide⟩, ?_⟩
  intro h
  have hok := h 1 1 (by decide) (by decide) (by decide) (by decide)
  obtain ⟨-, hiff⟩ := hok
  have h0 := hiff.mpr ⟨by decide, by decide, by decide⟩
  have h1 : ((stack_launchpad_trigger_midi_all_off
      (stack_launchpad_trigger_add_button
        (initialLaunchpadDevice, []) 1 1 10 20 30).1).buttons
      (1, 1)).usage_count = 1 := by decide
  rw [h0] at h1
  exact absurd h1 (by decide)

/-- C1 amended: the equivalence between a zero usage count and a black
colour, together with non-negativity of the usage count, is preserved by
add_button whenever the claimed colour is not black, by remove_button
always, and is re-established from scratch by update_buttons whenever
every trigger has a valid position and a non-black colour and every global
button colour is non-black.  It is not enforced by device close (the
all-off pass blanks every colour while leaving usage counts untouched),
nor by a claim whose colour is black, nor by the press feedback blank of
the poll loop. -/
theorem C1_grid_invariant_amended :
    (∀ (s : LaunchpadDevice × List StackLaunchpadTrigger)
       (column row r g b : Nat),
      LaunchpadGridInv s.1 →
      ¬(r % 256 = 0 ∧ g % 256 = 0 ∧ b % 256 = 0) →
      LaunchpadGridInv
        (stack_launchpad_trigger_add_button s column row r g b).1) ∧
    (∀ (d : LaunchpadDevice) (column row : Nat),
      LaunchpadGridInv d →
      LaunchpadGridInv (stack_launchpad_trigger_remove_button d column row)) ∧
    (∀ (globals : List LaunchpadGlobalButton) (d : LaunchpadDevice)
       (ts : List StackLaunchpadTrigger),
      (∀ gb ∈ globals, LaunchpadGlobalOk gb) →
      (∀ t ∈ ts, LaunchpadTriggerOk t) →
      LaunchpadGridInv
        (stack_launchpad_trigger_update_buttons globals d ts).1) :=
  ⟨add_button_preserves_inv, remove_button_preserves_inv,
   update_buttons_establishes_inv⟩

theorem C1_grid_invariant_amended_witness :
    LaunchpadGridInv
      (stack_launchpad_trigger_add_button (initialLaunchpadDevice, [])
        1 1 10 20 30).1 ∧
    LaunchpadGridInv
      (stack_launchpad_trigger_remove_button initialLaunchpadDevice 1 1) ∧
    LaunchpadGridInv
      (stack_launchpad_trigger_update_buttons global_buttons_default
        initialLaunchpadDevice
        [⟨3, 4, 0, 255, 0, true, false⟩]).1 :=
  ⟨C1_grid_invariant_amended.1 (initialLaunchpadDevice, []) 1 1 10 20 30
     initial_device_inv (by decide),
   C1_grid_invariant_amended.2.1 initialLaunchpadDevice 1 1
     initial_device_inv,
   C1_grid_invariant_amended.2.2 global_buttons_default
     initialLaunchpadDevice [⟨3, 4, 0, 255, 0, true, false⟩]
     global_buttons_default_ok
     (by
       intro t ht
       unfold LaunchpadTriggerOk
       fin_cases ht <;> decide)⟩

theorem add_button_fst_valid
    (s : LaunchpadDevice × List StackLaunchpadTrigger)
    (column row r g b : Nat) (hg : (column ≤ 9 && row ≤ 9) = true) :
    (stack_launchpad_trigger_add_button s column row r g b).1 =
      stack_launchpad_trigger_midi_set_color (bumpUsage s.1 column row)
        column row r g b := by
  unfold stack_launchpad_trigger_add_button
  simp [hg]

theorem add_button_count_at
    (s : LaunchpadDevice × List StackLaunchpadTrigger)
    (column row r g b : Nat) (hc9 : column ≤ 9) (hr9 : row ≤ 9) :
    ((stack_launchpad_trigger_add_button s column row r g b).1.buttons
        (column, row)).usage_count =
      (s.1.buttons (column, row)).usage_count + 1 := by
  rw [add_button_fst_valid _ _ _ _ _ _ (by simp [hc9, hr9]),
    midi_set_color_at, button_with_colors_usage, bumpUsage_at,
    button_with_usage_usage]

theorem claim_list_count (column row : Nat) (hc9 : column ≤ 9)
    (hr9 : row ≤ 9) :
    ∀ (colors : List (Nat × Nat × Nat))
      (s : LaunchpadDevice × List StackLaunchpadTrigger),
    ((launchpad_claim_list s column row colors).1.buttons
        (column, row)).usage_count =
      (s.1.buttons (column, row)).usage_count + (colors.length : Int) := by
  intro colors
  induction colors with
  | nil =>
    intro s
    simp [launchpad_claim_list]
  | cons c rest ih =>
    intro s
    unfold launchpad_claim_list
    simp only [List.foldl_cons]
    have hstep := add_button_count_at s column row c.1 c.2.1 c.2.2 hc9 hr9
    have htail := ih (stack_launchpad_trigger_add_button s column row
      c.1 c.2.1 c.2.2)
    unfold launchpad_claim_list at htail
    rw [htail, hstep]
    simp only [List.length_cons]
    push_cast
    ring

theorem remove_button_at_last (d : LaunchpadDevice) (column row : Nat)
    (hc1 : 1 ≤ column) (hc9 : column ≤ 9) (hr1 : 1 ≤ row) (hr9 : row ≤ 9)
    (hcount : (d.buttons (column, row)).usage_count = 1) :
    (stack_launchpad_trigger_remove_button d column row).buttons
        (column, row) =
      { last_press_time := (d.buttons (column, row)).last_press_time,
        usage_count := 0, r := 0, g := 0, b := 0 } := by
  unfold stack_launchpad_trigger_remove_button
  have hg : (column = 0 || row = 0 || column > 9 || row > 9) = false := by
    simp only [Bool.or_eq_false_iff, decide_eq_false_iff_not]
    omega
  simp only [hg, Bool.false_eq_true, if_false]
  simp only [hcount]
  norm_num
  rw [midi_set_color_at, device_with_buttons, writePad_same]

theorem remove_button_at_many (d : LaunchpadDevice) (column row : Nat)
    (hc1 : 1 ≤ column) (hc9 : column ≤ 9) (hr1 : 1 ≤ row) (hr9 : row ≤ 9)
    (hcount : 2 ≤ (d.buttons (column, row)).usage_count) :
    (stack_launchpad_trigger_remove_button d column row).buttons
        (column, row) =
      { d.buttons (column, row) with
          usage_count := (d.buttons (column, row)).usage_count - 1 } := by
  unfold stack_launchpad_trigger_remove_button
  have hg : (column = 0 || row = 0 || column > 9 || row > 9) = false := by
    simp only [Bool.or_eq_false_iff, decide_eq_false_iff_not]
    omega
  simp only [hg, Bool.false_eq_true, if_false]
  have hpos : 0 < (d.buttons (column, row)).usage_count := by omega
  have hne : ¬((d.buttons (column, row)).usage_count - 1 = 0) := by omega
  simp only [hpos, if_true, hne, if_false]
  rw [device_with_buttons, writePad_same]

theorem release_times_restores (column row : Nat)
    (hc1 : 1 ≤ column) (hc9 : column ≤ 9) (hr1 : 1 ≤ row) (hr9 : row ≤ 9) :
    ∀ (n : Nat) (d : LaunchpadDevice), 1 ≤ n →
    (d.buttons (column, row)).usage_count = (n : Int) →
    ((launchpad_release_times d column row n).buttons
        (column, row)).usage_count = 0 ∧
    ((launchpad_release_times d column row n).buttons (column, row)).r = 0 ∧
    ((launchpad_release_times d column row n).buttons (column, row)).g = 0 ∧
    ((launchpad_release_times d column row n).buttons (column, row)).b = 0 := by
  intro n
  induction n with
  | zero =>
    intro d h1 _
    exact absurd h1 (by decide)
  | succ n ih =>
    intro d _ hcount
    unfold launchpad_release_times
    rcases Nat.eq_zero_or_pos n with h0 | hpos
    · subst h0
      have hlast := remove_button_at_last d column row hc1 hc9 hr1 hr9
        (by rw [hcount]; rfl)
      unfold launchpad_release_times
      rw [hlast]
      exact ⟨rfl, rfl, rfl, rfl⟩
    · have hmany := remove_button_at_many d column row hc1 hc9 hr1 hr9
        (by rw [hcount]; omega)
      apply ih
      · exact hpos
      · rw [hmany, button_with_usage_usage, hcount]
        push_cast
        ring

theorem add_button_nonneg
    (s : LaunchpadDevice × List StackLaunchpadTrigger)
    (column row r g b : Nat)
    (h : ∀ x : Nat × Nat, 0 ≤ (s.1.buttons x).usage_count) :
    ∀ x : Nat × Nat,
      0 ≤ ((stack_launchpad_trigger_add_button s column row r g b).1.buttons
        x).usage_count := by
  intro x
  unfold stack_launchpad_trigger_add_button
  by_cases hg : (column ≤ 9 && row ≤ 9) = true
  · simp only [hg, if_true]
    rw [midi_set_color_buttons]
    by_cases hx : x = (column, row)
    · rw [hx, writePad_same, button_with_colors_usage, bumpUsage_at,
        button_with_usage_usage]
      have hc := h (column, row)
      omega
    · rw [writePad_ne _ _ _ _ _ hx, bumpUsage_buttons_ne _ _ _ _ hx]
      exact h x
  · simp only [hg, Bool.false_eq_true, if_false]
    exact h x

theorem remove_button_nonneg (d : LaunchpadDevice) (column row : Nat)
    (h : ∀ x : Nat × Nat, 0 ≤ (d.buttons x).usage_count) :
    ∀ x : Nat × Nat,
      0 ≤ ((stack_launchpad_trigger_remove_button d column row).buttons
        x).usage_count := by
  intro x
  unfold stack_launchpad_trigger_remove_button
  by_cases hg : (column = 0 || row = 0 || column > 9 || row > 9) = true
  · simp only [hg, if_true]
    exact h x
  · simp only [hg, Bool.false_eq_true, if_false]
    by_cases hpos : 0 < (d.buttons (column, row)).usage_count
    · simp only [hpos, if_true]
      by_cases hz : (d.buttons (column, row)).usage_count - 1 = 0
      · simp only [hz, if_true]
        rw [midi_set_color_buttons, device_with_buttons, writePad_same,
          writePad_writePad]
        by_cases hx : x = (column, row)
        · rw [hx, writePad_same, button_with_colors_usage,
            button_with_usage_usage]
        · rw [writePad_ne _ _ _ _ _ hx]
          exact h x
      · simp only [hz, if_false]
        rw [device_with_buttons]
        by_cases hx : x = (column, row)
        · rw [hx, writePad_same, button_with_usage_usage]
          omega
        · rw [writePad_ne _ _ _ _ _ hx]
          exact h x
    · simp only [hpos, if_false]
      exact h x

theorem apply_pad_ops_nonneg :
    ∀ (ops : List LaunchpadPadOp)
      (s : LaunchpadDevice × List StackLaunchpadTrigger),
    (∀ x : Nat × Nat, 0 ≤ (s.1.buttons x).usage_count) →
    ∀ x : Nat × Nat,
      0 ≤ ((launchpad_apply_pad_ops s ops).1.buttons x).usage_count := by
  intro ops
  induction ops with
  | nil =>
    intro s h
    exact h
  | cons op rest ih =>
    intro s h
    cases op with
    | claimOp column row r g b =>
      exact ih _ (add_button_nonneg s column row r g b h)
    | releaseOp column row =>
      exact ih _ (remove_button_nonneg s.1 column row h)

theorem remove_button_noop_at_zero (d : LaunchpadDevice) (column row : Nat)
    (h : (d.buttons (column, row)).usage_count = 0) :
    stack_launchpad_trigger_remove_button d column row = d := by
  unfold stack_launchpad_trigger_remove_button
  by_cases hg : (column = 0 || row = 0 || column > 9 || row > 9) = true
  · simp [hg]
  · simp only [hg, Bool.false_eq_true, if_false]
    have hpos : ¬ 0 < (d.buttons (column, row)).usage_count := by omega
    simp [hpos]

/-- C5: claiming a valid pad n times (with arbitrary colours) and then
releasing it n times restores a pad that started unused and black to usage
count zero and black colour; the usage count never becomes negative under
any sequence of claim and release calls; and a release of a pad whose
usage count is already zero leaves the device completely unchanged. -/
theorem C5_claim_release_balance :
    (∀ (s : LaunchpadDevice × List StackLaunchpadTrigger)
       (column row : Nat) (colors : List (Nat × Nat × Nat)),
      1 ≤ column → column ≤ 9 → 1 ≤ row → row ≤ 9 →
      (s.1.buttons (column, row)).usage_count = 0 →
      (s.1.buttons (column, row)).r = 0 →
      (s.1.buttons (column, row)).g = 0 →
      (s.1.buttons (column, row)).b = 0 →
      ((launchpad_release_times
          (launchpad_claim_list s column row colors).1 column row
          colors.length).buttons (column, row)).usage_count = 0 ∧
      ((launchpad_release_times
          (launchpad_claim_list s column row colors).1 column row
          colors.length).buttons (column, row)).r = 0 ∧
      ((launchpad_release_times
          (launchpad_claim_list s column row colors).1 column row
          colors.length).buttons (column, row)).g = 0 ∧
      ((launchpad_release_times
          (launchpad_claim_list s column row colors).1 column row
          colors.length).buttons (column, row)).b = 0) ∧
    (∀ (ops : List LaunchpadPadOp)
       (s : LaunchpadDevice × List StackLaunchpadTrigger),
      (∀ x : Nat × Nat, 0 ≤ (s.1.buttons x).usage_count) →
      ∀ x : Nat × Nat,
        0 ≤ ((launchpad_apply_pad_ops s ops).1.buttons x).usage_count) ∧
    (∀ (d : LaunchpadDevice) (column row : Nat),
      (d.buttons (column, row)).usage_count = 0 →
      stack_launchpad_trigger_remove_button d column row = d) := by
  refine ⟨?_, apply_pad_ops_nonneg, remove_button_noop_at_zero⟩
  intro s column row colors hc1 hc9 hr1 hr9 h0 hr0 hg0 hb0
  cases colors with
  | nil =>
    exact ⟨h0, hr0, hg0, hb0⟩
  | cons c rest =>
    apply release_times_restores column row hc1 hc9 hr1 hr9
    · simp only [List.length_cons]
      omega
    · rw [claim_list_count column row hc9 hr9, h0]
      simp

theorem C5_claim_release_balance_witness :
    (((launchpad_release_times
        (launchpad_claim_list (initialLaunchpadDevice, []) 3 4
          [(255, 0, 0)]).1 3 4
        ([((255 : Nat), (0 : Nat), (0 : Nat))] : List (Nat × Nat × Nat)).length).buttons
        (3, 4)).usage_count = 0 ∧
     ((launchpad_release_times
        (launchpad_claim_list (initialLaunchpadDevice, []) 3 4
          [(255, 0, 0)]).1 3 4
        ([((255 : Nat), (0 : Nat), (0 : Nat))] : List (Nat × Nat × Nat)).length).buttons
        (3, 4)).r = 0) ∧
    (0 ≤ ((launchpad_apply_pad_ops (initialLaunchpadDevice, [])
        [LaunchpadPadOp.claimOp 3 4 255 0 0, LaunchpadPadOp.releaseOp 3 4,
         LaunchpadPadOp.releaseOp 3 4]).1.buttons (3, 4)).usage_count) ∧
    stack_launchpad_trigger_remove_button initialLaunchpadDevice 3 4 =
      initialLaunchpadDevice :=
  ⟨⟨(C5_claim_release_balance.1 (initialLaunchpadDevice, []) 3 4
      [(255, 0, 0)] (by decide) (by decide) (by decide) (by decide)
      rfl rfl rfl rfl).1,
    (C5_claim_release_balance.1 (initialLaunchpadDevice, []) 3 4
      [(255, 0, 0)] (by decide) (by decide) (by decide) (by decide)
      rfl rfl rfl rfl).2.1⟩,
   C5_claim_release_balance.2.1
     [LaunchpadPadOp.claimOp 3 4 255 0 0, LaunchpadPadOp.releaseOp 3 4,
      LaunchpadPadOp.releaseOp 3 4] (initialLaunchpadDevice, [])
     (fun _ => le_refl 0) (3, 4),
   C5_claim_release_balance.2.2 initialLaunchpadDevice 3 4 rfl⟩

theorem handle_pad_event_press_fires_only_if (d : LaunchpadDevice)
    (t : StackLaunchpadTrigger) (column row pressure : Nat) (now : Int) :
    (stack_launchpad_trigger_handle_pad_event d t column row pressure
        now).2 = true →
    0 < pressure →
    1000 < now - (d.buttons (column, row)).last_press_time := by
  unfold stack_launchpad_trigger_handle_pad_event
  by_cases hm : (t.row = row && t.column = column) = true
  · simp only [hm, if_true]
    by_cases hp : 0 < pressure
    · simp only [hp, if_true]
      by_cases hd : 1000 < now - (d.buttons (column, row)).last_press_time
      · intro _ _
        exact hd
      · simp only [hd, if_false]
        intro hfalse
        exact absurd hfalse (by simp)
    · simp only [hp, if_false]
      intro _ hp2
      exact hp2.elim
  · simp only [hm, Bool.false_eq_true, if_false]
    intro hfalse
    exact absurd hfalse (by simp)

theorem handle_pad_event_honored_press (d : LaunchpadDevice)
    (t : StackLaunchpadTrigger) (column row pressure : Nat) (now : Int)
    (hm1 : t.row = row) (hm2 : t.column = column) (hp : 0 < pressure)
    (hd : 1000 < now - (d.buttons (column, row)).last_press_time) :
    ((stack_launchpad_trigger_handle_pad_event d t column row pressure
        now).1.buttons (column, row)).last_press_time = now ∧
    ((stack_launchpad_trigger_handle_pad_event d t column row pressure
        now).1.buttons (column, row)).r = 0 ∧
    ((stack_launchpad_trigger_handle_pad_event d t column row pressure
        now).1.buttons (column, row)).g = 0 ∧
    ((stack_launchpad_trigger_handle_pad_event d t column row pressure
        now).1.buttons (column, row)).b = 0 ∧
    (stack_launchpad_trigger_handle_pad_event d t column row pressure
        now).2 = t.on_pressed := by
  unfold stack_launchpad_trigger_handle_pad_event
  have hm : (t.row = row && t.column = column) = true := by
    simp [hm1, hm2]
  simp only [hm, if_true, hp, if_true, hd, if_true]
  rw [midi_set_color_at, device_with_buttons, writePad_same]
  refine ⟨?_, ?_, ?_, ?_, ?_⟩ <;> first | rfl | trivial

theorem handle_pad_event_release (d : LaunchpadDevice)
    (t : StackLaunchpadTrigger) (column row : Nat) (now : Int)
    (hm1 : t.row = row) (hm2 : t.column = column) :
    ((stack_launchpad_trigger_handle_pad_event d t column row 0
        now).1.buttons (column, row)).r = t.r % 256 ∧
    ((stack_launchpad_trigger_handle_pad_event d t column row 0
        now).1.buttons (column, row)).g = t.g % 256 ∧
    ((stack_launchpad_trigger_handle_pad_event d t column row 0
        now).1.buttons (column, row)).b = t.b % 256 ∧
    ((stack_launchpad_trigger_handle_pad_event d t column row 0
        now).1.buttons (column, row)).last_press_time =
      (d.buttons (column, row)).last_press_time ∧
    (stack_launchpad_trigger_handle_pad_event d t column row 0 now).2 =
      !t.on_pressed := by
  unfold stack_launchpad_trigger_handle_pad_event
  have hm : (t.row = row && t.column = column) = true := by
    simp [hm1, hm2]
  have hp : ¬ (0 < (0 : Nat)) := by decide
  simp only [hm, if_true, hp, if_false]
  rw [midi_set_color_at]
  refine ⟨?_, ?_, ?_, ?_, ?_⟩ <;> first | rfl | trivial

/-- C6: a press on a pad claimed by a trigger fires the action only when
the time since the last recorded press of the pad exceeds the debounce
window of 1000 clock units; a press at time 0 followed by a second press
at half the window (time 500) fires no action for the second press; a
press at time 0, a release, and a press at twice the window (time 2000)
fire the action for both presses; an honoured press blanks the pad colour
and records the press time; a release always restores the trigger colour
and fires exactly when the trigger is configured to fire on release,
independent of any debounce state. -/
theorem C6_debounce :
    (∀ (d : LaunchpadDevice) (t : StackLaunchpadTrigger)
       (column row pressure : Nat) (now : Int),
      (stack_launchpad_trigger_handle_pad_event d t column row pressure
          now).2 = true →
      0 < pressure →
      1000 < now - (d.buttons (column, row)).last_press_time) ∧
    ((stack_launchpad_trigger_handle_pad_event
        ⟨writePad (fun _ => default) 3 4 ⟨-2000, 1, 10, 20, 30⟩, false, []⟩
        ⟨3, 4, 10, 20, 30, true, false⟩ 3 4 127 0).2 = true ∧
     (stack_launchpad_trigger_handle_pad_event
        (stack_launchpad_trigger_handle_pad_event
          ⟨writePad (fun _ => default) 3 4 ⟨-2000, 1, 10, 20, 30⟩, false, []⟩
          ⟨3, 4, 10, 20, 30, true, false⟩ 3 4 127 0).1
        ⟨3, 4, 10, 20, 30, true, false⟩ 3 4 127 500).2 = false) ∧
    ((stack_launchpad_trigger_handle_pad_event
        ⟨writePad (fun _ => default) 3 4 ⟨-2000, 1, 10, 20, 30⟩, false, []⟩
        ⟨3, 4, 10, 20, 30, true, false⟩ 3 4 127 0).2 = true ∧
     (stack_launchpad_trigger_handle_pad_event
        (stack_launchpad_trigger_handle_pad_event
          ⟨writePad (fun _ => default) 3 4 ⟨-2000, 1, 10, 20, 30⟩, false, []⟩
          ⟨3, 4, 10, 20, 30, true, false⟩ 3 4 127 0).1
        ⟨3, 4, 10, 20, 30, true, false⟩ 3 4 0 300).2 = false ∧
     (stack_launchpad_trigger_handle_pad_event
        (stack_launchpad_trigger_handle_pad_event
          (stack_launchpad_trigger_handle_pad_event
            ⟨writePad (fun _ => default) 3 4 ⟨-2000, 1, 10, 20, 30⟩, false, []⟩
            ⟨3, 4, 10, 20, 30, true, false⟩ 3 4 127 0).1
          ⟨3, 4, 10, 20, 30, true, false⟩ 3 4 0 300).1
        ⟨3, 4, 10, 20, 30, true, false⟩ 3 4 127 2000).2 = true) ∧
    (∀ (d : LaunchpadDevice) (t : StackLaunchpadTrigger)
       (column row pressure : Nat) (now : Int),
      t.row = row → t.column = column → 0 < pressure →
      1000 < now - (d.buttons (column, row)).last_press_time →
      ((stack_launchpad_trigger_handle_pad_event d t column row pressure
          now).1.buttons (column, row)).last_press_time = now ∧
      ((stack_launchpad_trigger_handle_pad_event d t column row pressure
          now).1.buttons (column, row)).r = 0 ∧
      ((stack_launchpad_trigger_handle_pad_event d t column row pressure
          now).1.buttons (column, row)).g = 0 ∧
      ((stack_launchpad_trigger_handle_pad_event d t column row pressure
          now).1.buttons (column, row)).b = 0 ∧
      (stack_launchpad_trigger_handle_pad_event d t column row pressure
          now).2 = t.on_pressed) ∧
    (∀ (d : LaunchpadDevice) (t : StackLaunchpadTrigger)
       (column row : Nat) (now : Int),
      t.row = row → t.column = column →
      ((stack_launchpad_trigger_handle_pad_event d t column row 0
          now).1.buttons (column, row)).r = t.r % 256 ∧
      ((stack_launchpad_trigger_handle_pad_event d t column row 0
          now).1.buttons (column, row)).g = t.g % 256 ∧
      ((stack_launchpad_trigger_handle_pad_event d t column row 0
          now).1.buttons (column, row)).b = t.b % 256 ∧
      ((stack_launchpad_trigger_handle_pad_event d t column row 0
          now).1.buttons (column, row)).last_press_time =
        (d.buttons (column, row)).last_press_time ∧
      (stack_launchpad_trigger_handle_pad_event d t column row 0 now).2 =
        !t.on_pressed) :=
  ⟨handle_pad_event_press_fires_only_if,
   ⟨by decide, by decide⟩,
   ⟨by decide, by decide, by decide⟩,
   handle_pad_event_honored_press,
   handle_pad_event_release⟩

theorem C6_debounce_witness :
    1000 <
      (0 : Int) -
        ((⟨writePad (fun _ => default) 3 4 ⟨-2000, 1, 10, 20, 30⟩, false,
            []⟩ : LaunchpadDevice).buttons (3, 4)).last_press_time ∧
    ((stack_launchpad_trigger_handle_pad_event
        ⟨writePad (fun _ => default) 3 4 ⟨-2000, 1, 10, 20, 30⟩, false, []⟩
        ⟨3, 4, 10, 20, 30, true, false⟩ 3 4 127 0).1.buttons
        (3, 4)).last_press_time = 0 ∧
    ((stack_launchpad_trigger_handle_pad_event
        ⟨writePad (fun _ => default) 3 4 ⟨-2000, 1, 10, 20, 30⟩, false, []⟩
        ⟨3, 4, 10, 20, 30, true, false⟩ 3 4 0 0).1.buttons (3, 4)).r =
      10 % 256 :=
  ⟨C6_debounce.1
      ⟨writePad (fun _ => default) 3 4 ⟨-2000, 1, 10, 20, 30⟩, false, []⟩
      ⟨3, 4, 10, 20, 30, true, false⟩ 3 4 127 0 (by decide) (by decide),
   (C6_debounce.2.2.2.1
      ⟨writePad (fun _ => default) 3 4 ⟨-2000, 1, 10, 20, 30⟩, false, []⟩
      ⟨3, 4, 10, 20, 30, true, false⟩ 3 4 127 0 rfl rfl (by decide)
      (by decide)).1,
   (C6_debounce.2.2.2.2
      ⟨writePad (fun _ => default) 3 4 ⟨-2000, 1, 10, 20, 30⟩, false, []⟩
      ⟨3, 4, 10, 20, 30, true, false⟩ 3 4 0 rfl rfl).1⟩

theorem get_device_address_open_failure_aborts
    (c : LaunchpadSoundCard) (rest : List LaunchpadSoundCard) (idx : Nat)
    (h : c.openOk = false) :
    stack_launchpad_trigger_get_device_address (c :: rest) idx = none := by
  unfold stack_launchpad_trigger_get_device_address
  simp [h]

theorem get_device_address_eq_claimed_of_all_open :
    ∀ (cards : List LaunchpadSoundCard) (idx : Nat),
    (∀ c ∈ cards, c.openOk = true) →
    stack_launchpad_trigger_get_device_address cards idx =
      stack_launchpad_trigger_get_device_address_claimed cards idx := by
  intro cards
  induction cards with
  | nil =>
    intro idx _
    rfl
  | cons c rest ih =>
    intro idx h
    have hc : c.openOk = true := h c (List.mem_cons_self c rest)
    have hrest : ∀ x ∈ rest, x.openOk = true :=
      fun x hx => h x (List.mem_cons_of_mem c hx)
    unfold stack_launchpad_trigger_get_device_address
      stack_launchpad_trigger_get_device_address_claimed
    simp only [hc, if_true]
    cases launchpad_scan_devices c.devs 0 with
    | none =>
      exact ih (idx + 1) hrest
    | some hit =>
      rfl

/-- C7 counterexample: with a first adapter whose control interface fails
to open and a second adapter carrying a Launchpad MIDI subdevice, the
source returns not-found because the open failure breaks out of the whole
card loop, while the enumeration described by the claim would continue and
return the address on the second adapter. -/
theorem C7_counterexample :
    stack_launchpad_trigger_get_device_address
      [⟨false, []⟩,
       ⟨true, [LaunchpadRawMidiQuery.ok ("Launchpad X".toList)
         [some ("Launchpad X MIDI 1".toList)]]⟩] 0 = none ∧
    stack_launchpad_trigger_get_device_address_claimed
      [⟨false, []⟩,
       ⟨true, [LaunchpadRawMidiQuery.ok ("Launchpad X".toList)
         [some ("Launchpad X MIDI 1".toList)]]⟩] 0 = some (1, 0, 0) := by
  refine ⟨?_, ?_⟩ <;> decide

/-- C7 amended: discovery scans adapters, devices and subdevices in order
and returns the first input subdevice whose device name contains the
product string and whose subdevice name contains both the product string
and the plain MIDI marker; info-query failures on the devices or
subdevices of an opened adapter are non-fatal for the enumeration, which
moves on to the next adapter; but a failure of snd_ctl_open on any adapter
aborts the entire enumeration and reports not-found, ignoring every later
adapter, so per-adapter open failures are fatal, contrary to the claim. -/
theorem C7_discovery_amended :
    (∀ (c : LaunchpadSoundCard) (rest : List LaunchpadSoundCard) (idx : Nat),
      c.openOk = false →
      stack_launchpad_trigger_get_device_address (c :: rest) idx = none) ∧
    (∀ (cards : List LaunchpadSoundCard) (idx : Nat),
      (∀ c ∈ cards, c.openOk = true) →
      stack_launchpad_trigger_get_device_address cards idx =
        stack_launchpad_trigger_get_device_address_claimed cards idx) ∧
    stack_launchpad_trigger_get_device_address
      [⟨true, [LaunchpadRawMidiQuery.fatalErr]⟩,
       ⟨true, [LaunchpadRawMidiQuery.noEnt,
         LaunchpadRawMidiQuery.ok ("Launchpad X".toList)
           [none, some ("Launchpad X DAW 1".toList),
            some ("Launchpad X MIDI 1".toList)]]⟩,
       ⟨true, [LaunchpadRawMidiQuery.ok ("Launchpad X".toList)
         [some ("Launchpad X MIDI 1".toList)]]⟩] 0 = some (2, 0, 0) :=
  ⟨get_device_address_open_failure_aborts,
   get_device_address_eq_claimed_of_all_open,
   by decide⟩

theorem C7_discovery_amended_witness :
    stack_launchpad_trigger_get_device_address
      [⟨false, [LaunchpadRawMidiQuery.ok ("Launchpad X".toList)
        [some ("Launchpad X MIDI 1".toList)]]⟩] 0 = none ∧
    stack_launchpad_trigger_get_device_address
      [⟨true, [LaunchpadRawMidiQuery.ok ("Launchpad X".toList)
        [some ("Launchpad X MIDI 1".toList)]]⟩] 0 =
      stack_launchpad_trigger_get_device_address_claimed
      [⟨true, [LaunchpadRawMidiQuery.ok ("Launchpad X".toList)
        [some ("Launchpad X MIDI 1".toList)]]⟩] 0 :=
  ⟨C7_discovery_amended.1
      ⟨false, [LaunchpadRawMidiQuery.ok ("Launchpad X".toList)
        [some ("Launchpad X MIDI 1".toList)]]⟩ [] 0 rfl,
   C7_discovery_amended.2.1
      [⟨true, [LaunchpadRawMidiQuery.ok ("Launchpad X".toList)
        [some ("Launchpad X MIDI 1".toList)]]⟩] 0
      (by
        intro c hc
        fin_cases hc
        rfl)⟩

theorem threadstate_mk_size (n : Nat) (tr : Bool) (w : Nat) (dv : Bool) :
    (LaunchpadThreadState.mk n tr w dv).registrySize = n := rfl

theorem threadstate_mk_running (n : Nat) (tr : Bool) (w : Nat) (dv : Bool) :
    (LaunchpadThreadState.mk n tr w dv).threadRunning = tr := rfl

theorem threadstate_mk_worker (n : Nat) (tr : Bool) (w : Nat) (dv : Bool) :
    (LaunchpadThreadState.mk n tr w dv).workerCount = w := rfl

theorem threadstate_mk_device (n : Nat) (tr : Bool) (w : Nat) (dv : Bool) :
    (LaunchpadThreadState.mk n tr w dv).deviceOpen = dv := rfl

theorem lifecycle_inv_init : LaunchpadThreadInv launchpad_lifecycle_init := by
  unfold LaunchpadThreadInv launchpad_lifecycle_init
  simp only [threadstate_mk_size, threadstate_mk_running,
    threadstate_mk_worker, threadstate_mk_device]
  refine ⟨by decide, ?_, ?_, ?_⟩ <;> simp

theorem lifecycle_inv_step (s : LaunchpadThreadState)
    (op : LaunchpadLifecycleOp) (h : LaunchpadThreadInv s) :
    LaunchpadThreadInv (launchpad_lifecycle_step s op) := by
  obtain ⟨n, tr, w, dv⟩ := s
  unfold LaunchpadThreadInv at h ⊢
  simp only [threadstate_mk_size, threadstate_mk_running,
    threadstate_mk_worker, threadstate_mk_device] at h
  obtain ⟨h1, h2, h3, h4⟩ := h
  cases op with
  | createTrigger =>
    cases tr with
    | false =>
      have hw0 : w = 0 := by
        rcases Nat.eq_or_lt_of_le h1 with he | hlt
        · exact absurd (h2.mpr he) (by decide)
        · omega
      unfold launchpad_lifecycle_step
      simp only [threadstate_mk_running, Bool.false_eq_true, if_false,
        threadstate_mk_size, threadstate_mk_worker, threadstate_mk_device]
      subst hw0
      refine ⟨by omega, by simp, ?_, ?_⟩
      · constructor
        · intro _
          omega
        · intro _
          rfl
      · intro hdv
        exact absurd (h4 hdv) (by decide)
    | true =>
      unfold launchpad_lifecycle_step
      simp only [threadstate_mk_running, if_true,
        threadstate_mk_size, threadstate_mk_worker, threadstate_mk_device]
      have hw1 : w = 1 := h2.mp rfl
      subst hw1
      refine ⟨h1, by simp, ?_, fun _ => rfl⟩
      constructor
      · intro _
        omega
      · intro _
        rfl
  | destroyTrigger =>
    unfold launchpad_lifecycle_step
    simp only [threadstate_mk_size]
    by_cases hz : n - 1 = 0
    · rw [if_pos hz]
      refine ⟨by decide, by simp, by simp, by simp⟩
    · rw [if_neg hz]
      refine ⟨h1, h2, ?_, h4⟩
      constructor
      · intro hw
        have hn : 0 < n := h3.mp hw
        show 0 < n - 1
        exact Nat.pos_of_ne_zero hz
      · intro hpos
        have hpos2 : 0 < n - 1 := hpos
        exact h3.mpr (by omega)
  | acquireDevice =>
    unfold launchpad_lifecycle_step
    simp only [threadstate_mk_worker]
    by_cases hw : w = 1
    · rw [if_pos hw]
      exact ⟨h1, h2, by simpa using h3, fun _ => hw⟩
    · rw [if_neg hw]
      exact ⟨h1, h2, h3, h4⟩

theorem lifecycle_inv_run (ops : List LaunchpadLifecycleOp) :
    LaunchpadThreadInv (launchpad_lifecycle_run ops) := by
  have hgen : ∀ (l : List LaunchpadLifecycleOp) (s : LaunchpadThreadState),
      LaunchpadThreadInv s →
      LaunchpadThreadInv (l.foldl launchpad_lifecycle_step s) := by
    intro l
    induction l with
    | nil =>
      intro s hs
      exact hs
    | cons op rest ih =>
      intro s hs
      exact ih _ (lifecycle_inv_step s op hs)
  exact hgen ops launchpad_lifecycle_init lifecycle_inv_init

theorem lifecycle_create_spawns_iff (s : LaunchpadThreadState)
    (h : LaunchpadThreadInv s) :
    ((launchpad_lifecycle_step s LaunchpadLifecycleOp.createTrigger).workerCount
        = s.workerCount + 1 ↔ s.registrySize = 0) := by
  obtain ⟨n, tr, w, dv⟩ := s
  unfold LaunchpadThreadInv at h
  simp only [threadstate_mk_size, threadstate_mk_running,
    threadstate_mk_worker, threadstate_mk_device] at h
  obtain ⟨h1, h2, h3, h4⟩ := h
  cases tr with
  | true =>
    have hw1 : w = 1 := h2.mp rfl
    have hn : 0 < n := h3.mp hw1
    unfold launchpad_lifecycle_step
    simp only [threadstate_mk_running, if_true, threadstate_mk_worker,
      threadstate_mk_size]
    constructor
    · intro hfalse
      have hcontra : w = w + 1 := hfalse
      omega
    · intro h0
      have hn0 : n = 0 := h0
      omega
  | false =>
    have hw0 : w = 0 := by
      rcases Nat.eq_or_lt_of_le h1 with he | hlt
      · exact absurd (h2.mpr he) (by decide)
      · omega
    have hn : n = 0 := by
      by_cases hp : 0 < n
      · exact absurd (h3.mpr hp) (by omega)
      · omega
    unfold launchpad_lifecycle_step
    simp only [threadstate_mk_running, Bool.false_eq_true, if_false,
      threadstate_mk_worker, threadstate_mk_size]
    constructor
    · intro _
      exact hn
    · intro _
      first | rfl | trivial

theorem lifecycle_destroy_last (s : LaunchpadThreadState)
    (hs : s.registrySize = 1) :
    launchpad_lifecycle_step s LaunchpadLifecycleOp.destroyTrigger =
      launchpad_lifecycle_init := by
  obtain ⟨n, tr, w, dv⟩ := s
  have hn : n = 1 := hs
  subst hn
  unfold launchpad_lifecycle_step
  simp only [threadstate_mk_size]
  rfl

theorem lifecycle_create_nonempty (s : LaunchpadThreadState)
    (h : LaunchpadThreadInv s) (hs : 1 ≤ s.registrySize) :
    (launchpad_lifecycle_step s
        LaunchpadLifecycleOp.createTrigger).workerCount = s.workerCount := by
  obtain ⟨n, tr, w, dv⟩ := s
  unfold LaunchpadThreadInv at h
  simp only [threadstate_mk_size, threadstate_mk_running,
    threadstate_mk_worker, threadstate_mk_device] at h
  obtain ⟨h1, h2, h3, h4⟩ := h
  have hn : 1 ≤ n := hs
  have hw1 : w = 1 := h3.mpr (by omega)
  have htr : tr = true := h2.mpr hw1
  subst htr
  unfold launchpad_lifecycle_step
  simp only [threadstate_mk_running, if_true, threadstate_mk_worker]

theorem lifecycle_destroy_nonempty (s : LaunchpadThreadState)
    (hs : 2 ≤ s.registrySize) :
    (launchpad_lifecycle_step s
        LaunchpadLifecycleOp.destroyTrigger).workerCount = s.workerCount ∧
    (launchpad_lifecycle_step s
        LaunchpadLifecycleOp.destroyTrigger).threadRunning =
      s.threadRunning := by
  obtain ⟨n, tr, w, dv⟩ := s
  have hn : 2 ≤ n := hs
  have hz : ¬ (n - 1 = 0) := by omega
  unfold launchpad_lifecycle_step
  simp only [threadstate_mk_size]
  rw [if_neg hz]
  exact ⟨rfl, rfl⟩

/-- C9: in the lock-serialised model of trigger creation, trigger
destruction and device acquisition, at most one worker thread ever exists;
a creation spawns a worker exactly when the registry was empty; removing
the last trigger closes the device and joins the worker before returning,
leaving the initial state; and creations or destructions that keep the
registry non-empty neither spawn nor join a worker. -/
theorem C9_worker_lifecycle :
    (∀ ops : List LaunchpadLifecycleOp,
      (launchpad_lifecycle_run ops).workerCount ≤ 1) ∧
    (∀ ops : List LaunchpadLifecycleOp,
      ((launchpad_lifecycle_step (launchpad_lifecycle_run ops)
          LaunchpadLifecycleOp.createTrigger).workerCount =
        (launchpad_lifecycle_run ops).workerCount + 1 ↔
        (launchpad_lifecycle_run ops).registrySize = 0)) ∧
    (∀ ops : List LaunchpadLifecycleOp,
      (launchpad_lifecycle_run ops).registrySize = 1 →
      launchpad_lifecycle_step (launchpad_lifecycle_run ops)
        LaunchpadLifecycleOp.destroyTrigger = launchpad_lifecycle_init) ∧
    (∀ ops : List LaunchpadLifecycleOp,
      1 ≤ (launchpad_lifecycle_run ops).registrySize →
      (launchpad_lifecycle_step (launchpad_lifecycle_run ops)
          LaunchpadLifecycleOp.createTrigger).workerCount =
        (launchpad_lifecycle_run ops).workerCount) ∧
    (∀ ops : List LaunchpadLifecycleOp,
      2 ≤ (launchpad_lifecycle_run ops).registrySize →
      (launchpad_lifecycle_step (launchpad_lifecycle_run ops)
          LaunchpadLifecycleOp.destroyTrigger).workerCount =
        (launchpad_lifecycle_run ops).workerCount ∧
      (launchpad_lifecycle_step (launchpad_lifecycle_run ops)
          LaunchpadLifecycleOp.destroyTrigger).threadRunning =
        (launchpad_lifecycle_run ops).threadRunning) :=
  ⟨fun ops => (lifecycle_inv_run ops).1,
   fun ops => lifecycle_create_spawns_iff _ (lifecycle_inv_run ops),
   fun ops hs => lifecycle_destroy_last _ hs,
   fun ops hs => lifecycle_create_nonempty _ (lifecycle_inv_run ops) hs,
   fun ops hs => lifecycle_destroy_nonempty _ hs⟩

theorem C9_worker_lifecycle_witness :
    (launchpad_lifecycle_run [LaunchpadLifecycleOp.createTrigger]).workerCount
      ≤ 1 ∧
    ((launchpad_lifecycle_step (launchpad_lifecycle_run [])
        LaunchpadLifecycleOp.createTrigger).workerCount =
      (launchpad_lifecycle_run []).workerCount + 1 ↔
      (launchpad_lifecycle_run []).registrySize = 0) ∧
    launchpad_lifecycle_step
      (launchpad_lifecycle_run [LaunchpadLifecycleOp.createTrigger])
      LaunchpadLifecycleOp.destroyTrigger = launchpad_lifecycle_init ∧
    (launchpad_lifecycle_step
        (launchpad_lifecycle_run [LaunchpadLifecycleOp.createTrigger])
        LaunchpadLifecycleOp.createTrigger).workerCount =
      (launchpad_lifecycle_run
        [LaunchpadLifecycleOp.createTrigger]).workerCount ∧
    (launchpad_lifecycle_step
        (launchpad_lifecycle_run
          [LaunchpadLifecycleOp.createTrigger,
           LaunchpadLifecycleOp.createTrigger])
        LaunchpadLifecycleOp.destroyTrigger).workerCount =
      (launchpad_lifecycle_run
        [LaunchpadLifecycleOp.createTrigger,
         LaunchpadLifecycleOp.createTrigger]).workerCount :=
  ⟨C9_worker_lifecycle.1 [LaunchpadLifecycleOp.createTrigger],
   C9_worker_lifecycle.2.1 [],
   C9_worker_lifecycle.2.2.1 [LaunchpadLifecycleOp.createTrigger] (by decide),
   C9_worker_lifecycle.2.2.2.1 [LaunchpadLifecycleOp.createTrigger]
     (by decide),
   (C9_worker_lifecycle.2.2.2.2
     [LaunchpadLifecycleOp.createTrigger, LaunchpadLifecycleOp.createTrigger]
     (by decide)).1⟩

/-- C10 counterexample: with the device not ready, a colour write stores
the colour and sends nothing; on the next successful acquisition the
rebuild sends one 13-byte per-pad message derived from the registered
trigger, and no 413-byte full-grid refresh message is sent, so the part of
the claim stating that the stored colours reach the device via the
full-grid refresh pushed on acquisition is false. -/
theorem C10_counterexample :
    (stack_launchpad_trigger_midi_set_color initialLaunchpadDevice
        3 4 0 255 0).sent = [] ∧
    ((stack_launchpad_trigger_midi_set_color initialLaunchpadDevice
        3 4 0 255 0).buttons (3, 4)).g = 255 ∧
    (stack_launchpad_trigger_get_device_success global_buttons_default
        (stack_launchpad_trigger_midi_set_color initialLaunchpadDevice
          3 4 0 255 0)
        [⟨3, 4, 0, 255, 0, true, false⟩]).1.sent =
      [stack_launchpad_trigger_midi_set_color_output 3 4 0 255 0] ∧
    (stack_launchpad_trigger_midi_set_color_output 3 4 0 255 0).length
      = 13 ∧
    (13 : Nat) ≠ 413 := by
  refine ⟨rfl, by decide, by decide, by decide, by decide⟩

/-- C10 amended: setting a pad colour always updates the stored colour of
that pad in the grid; the 13-byte message is written to the output handle
exactly when the device is ready, and nothing is sent when it is not; the
stored state reaches the physical device on the next successful
acquisition through the rebuild, which re-derives every pad from the
registered triggers and sends individual per-pad 13-byte messages rather
than the full-grid refresh. -/
theorem C10_set_color_frame_effect_amended :
    (∀ (d : LaunchpadDevice) (column row r g b : Nat),
      ((stack_launchpad_trigger_midi_set_color d column row r g
          b).buttons (column, row)).r = r % 256 ∧
      ((stack_launchpad_trigger_midi_set_color d column row r g
          b).buttons (column, row)).g = g % 256 ∧
      ((stack_launchpad_trigger_midi_set_color d column row r g
          b).buttons (column, row)).b = b % 256) ∧
    (∀ (d : LaunchpadDevice) (column row r g b : Nat), d.ready = true →
      (stack_launchpad_trigger_midi_set_color d column row r g b).sent =
        d.sent ++
          [stack_launchpad_trigger_midi_set_color_output column row r g b]) ∧
    (∀ (d : LaunchpadDevice) (column row r g b : Nat), d.ready = false →
      (stack_launchpad_trigger_midi_set_color d column row r g b).sent =
        d.sent) ∧
    (stack_launchpad_trigger_get_device_success global_buttons_default
        (stack_launchpad_trigger_midi_set_color initialLaunchpadDevice
          3 4 0 255 0)
        [⟨3, 4, 0, 255, 0, true, false⟩]).1.sent =
      [stack_launchpad_trigger_midi_set_color_output 3 4 0 255 0] :=
  ⟨fun d column row r g b => by
      rw [midi_set_color_at]
      exact ⟨rfl, rfl, rfl⟩,
   midi_set_color_sent_ready,
   midi_set_color_sent_not_ready,
   by decide⟩

theorem C10_set_color_frame_effect_amended_witness :
    ((stack_launchpad_trigger_midi_set_color initialLaunchpadDevice
        3 4 0 255 0).buttons (3, 4)).r = 0 % 256 ∧
    (stack_launchpad_trigger_midi_set_color
        ⟨fun _ => default, true, []⟩ 3 4 0 255 0).sent =
      ([] : List (List Nat)) ++
        [stack_launchpad_trigger_midi_set_color_output 3 4 0 255 0] ∧
    (stack_launchpad_trigger_midi_set_color initialLaunchpadDevice
        3 4 0 255 0).sent = initialLaunchpadDevice.sent :=
  ⟨(C10_set_color_frame_effect_amended.1 initialLaunchpadDevice
      3 4 0 255 0).1,
   C10_set_color_frame_effect_amended.2.1 ⟨fun _ => default, true, []⟩
     3 4 0 255 0 rfl,
   C10_set_color_frame_effect_amended.2.2.1 initialLaunchpadDevice
     3 4 0 255 0 rfl⟩
